import Mathlib

/-!
glPortal: the per-frame world step (source/World.cpp)

A shallow embedding of `World::update`, `World::collidesWithWalls`,
`World::loadScene` and `World::shootPortal`.

Conventions of the embedding

* The C++ `float` is modelled by exact numbers (`Scalar`); rounding is outside
  the model and no proof below uses that the carrier is discrete.
* Classes whose code is not part of World.cpp (BoxCollider, Ray, Portal,
  Vector3f::length, Math, MapLoader, Input, SDL, the texture loader, the random
  generator) are not given a body: their functions are the fields of `Env`.
* The few `Player` methods the step calls are modelled from the specification
  (see the doc comments that say so).
* `Player &player = scene->player` is read through the scene that is current at
  each use. In the source the reference is bound once (line 90) and dangles
  after a `loadScene` inside the trigger loop, which is undefined behaviour; the
  embedding shows what happens when the loaded scene takes the block of the
  deleted one, so that `player` is the player of the new scene. The general
  statements below either hold whatever the overlap tests answer after such a
  load, or are about ticks in which the trigger loop loads no scene; the
  evaluations that run past such a load use scenes whose player has the box and
  velocity of the player of the deleted scene.
* `loadScene(const std::string &path)` deletes the scene before it reads
  `path`. A path owned by the World (currentScenePath, mapList) is read as it
  is; the map branch passes `trigger.reference`, owned by the deleted scene,
  and what is read then is given by `Env.readFreed`.
* `mapList[currentLevel]` with an index out of range has no defined result:
  the functions that read it return `Option`, and `none` stands for it.
* The trigger loop re-reads `scene->triggers.size()` after the scene may have
  been replaced, so it is defined with a budget of iterations; `none` also
  stands for an exhausted budget.
-/

namespace glPortal

/-- Exact stand-in for the C++ type float. -/
abbrev Scalar := Int

/-- Three scalar components, as engine/core/math/Vector3f. -/
structure Vector3f where
  x : Scalar
  y : Scalar
  z : Scalar
deriving DecidableEq, Repr

namespace Vector3f

/-- Componentwise sum, operator+ of Vector3f. -/
def add (a b : Vector3f) : Vector3f := ⟨a.x + b.x, a.y + b.y, a.z + b.z⟩

/-- Componentwise difference, operator- of Vector3f. -/
def sub (a b : Vector3f) : Vector3f := ⟨a.x - b.x, a.y - b.y, a.z - b.z⟩

/-- Product with a scalar, operator* of Vector3f. -/
def scale (a : Vector3f) (f : Scalar) : Vector3f := ⟨a.x * f, a.y * f, a.z * f⟩

end Vector3f

/-- Box given by a centre and a size, built as BoxCollider(position, size). -/
structure BoxCollider where
  position : Vector3f
  size : Vector3f
deriving DecidableEq, Repr

/-- Handle of a loaded texture; the name it was loaded from. -/
abbrev Texture := String

/-- Material descriptor: the portalable flag and the diffuse texture. -/
structure Material where
  portalable : Bool
  diffuse : Texture
deriving DecidableEq, Repr

/-- Plain entity, used for the start and end markers. -/
structure Entity where
  position : Vector3f
  rotation : Vector3f
  scale : Vector3f
deriving DecidableEq, Repr

/-- Wall or hazard volume. -/
structure PhysicsEntity where
  position : Vector3f
  rotation : Vector3f
  scale : Vector3f
  material : Material
  physBody : BoxCollider
deriving DecidableEq, Repr

/-- Trigger volume; type and reference are strings in the source. -/
structure Trigger where
  position : Vector3f
  scale : Vector3f
  type : String
  reference : String
deriving DecidableEq, Repr

/-- Player state read and written by the step. -/
structure Player where
  position : Vector3f
  velocity : Vector3f
  rotation : Vector3f
  scale : Vector3f
  alive : Bool
  grounded : Bool
  health : Int
deriving DecidableEq, Repr

/-- Colour tag of a portal (Portal::BLUE_COLOR, Portal::ORANGE_COLOR). -/
inductive PortalColor where
  | blue
  | orange
deriving DecidableEq, Repr

/-- Portal; the field isOpen is the member called open in the source. -/
structure Portal where
  position : Vector3f
  rotation : Vector3f
  scale : Vector3f
  isOpen : Bool
  openSince : Nat
  color : PortalColor
  material : Material
  maskTex : Material
deriving DecidableEq, Repr

/-- Camera fields written by the step and read by shootPortal. -/
structure Camera where
  position : Vector3f
  rotation : Vector3f
  aspect : Scalar
  perspective : Bool
deriving DecidableEq, Repr

/-- Scene; endMarker is the member called end in the source. -/
structure Scene where
  player : Player
  camera : Camera
  start : Entity
  endMarker : Entity
  walls : List PhysicsEntity
  volumes : List PhysicsEntity
  triggers : List Trigger
  bluePortal : Portal
  orangePortal : Portal
deriving DecidableEq, Repr

/-- What the sound manager was asked to play. -/
inductive AudioEvent where
  | music (path : String)
  | sound (path : String)
deriving DecidableEq, Repr

/-- Keys polled by the step. -/
inductive Scancode where
  | F5
  | LSHIFT
  | RSHIFT
deriving DecidableEq, Repr

/-- Ray with an origin and a direction, built as Ray(origin, direction). -/
structure Ray where
  origin : Vector3f
  direction : Vector3f
deriving DecidableEq, Repr

/-- Members of World, with the log of calls made to the sound manager. -/
structure World where
  scene : Scene
  mapList : List String
  currentLevel : Nat
  currentScenePath : String
  generator : Nat
  audio : List AudioEvent
deriving DecidableEq, Repr

/-- Functions and constants the step uses whose code is outside World.cpp. -/
structure Env where
  /-- Math: degrees to radians. -/
  rad : Scalar → Scalar
  /-- Constant HURT_VELOCITY. -/
  HURT_VELOCITY : Scalar
  /-- Constant MUSIC_PLAYLIST. -/
  MUSIC_PLAYLIST : List String
  /-- Constant PLAYER_FALL_SOUND. -/
  PLAYER_FALL_SOUND : List String
  /-- Environment::getDataDir. -/
  dataDir : String
  /-- MapLoader::getScene. -/
  getScene : String → Scene
  /-- Drawing from uniform_int_distribution(lo, hi) with the generator:
  generator state, lo, hi to the value drawn and the next generator state. -/
  uniform : Nat → Nat → Nat → Nat × Nat
  /-- Input::isKeyDown. -/
  isKeyDown : Scancode → Bool
  /-- Player::mouseLook. -/
  mouseLook : Player → Player
  /-- Player::move. -/
  move : Player → Player
  /-- BoxCollider::collidesWith. -/
  collidesWith : BoxCollider → BoxCollider → Bool
  /-- Portal::inPortal. -/
  inPortal : Portal → BoxCollider → Bool
  /-- Portal::throughPortal. -/
  throughPortal : Portal → BoxCollider → Bool
  /-- Portal::getDirection. -/
  getDirection : Portal → Vector3f
  /-- Vector3f::length. -/
  length : Vector3f → Scalar
  /-- Math::toDirection. -/
  toDirection : Vector3f → Vector3f
  /-- Ray::collides: none when the ray misses the entity, else tNear and tFar. -/
  rayCollides : Ray → PhysicsEntity → Option (Scalar × Scalar)
  /-- Default-constructed Portal. -/
  defaultPortal : Portal
  /-- Portal::placeOnWall(launchPos, wall, point), returning the portal it leaves. -/
  placeOnWall : Portal → Vector3f → BoxCollider → Vector3f → Portal
  /-- TextureLoader::getTexture. -/
  getTexture : String → Texture
  /-- SDL_GetTicks at the time of the call. -/
  getTicks : Nat
  /-- Size of the viewport in pixels, width and height. -/
  viewportSize : Int × Int
  /-- Characters read from a std::string after the scene that owns it has been
  deleted (a read of freed memory, undefined in C++), given the content the
  string had before the deletion. -/
  readFreed : String → String
  /-- Quotient of two floats, operator/ of float. -/
  divide : Scalar → Scalar → Scalar

/-- Modelled from the spec: Player::isAlive, whose code is not in World.cpp;
the player has an alive flag. -/
def Player.isAlive (p : Player) : Bool := p.alive

/-- Modelled from the spec: Player::kill, whose code is not in World.cpp;
it kills the player unconditionally. -/
def Player.kill (p : Player) : Player := { p with alive := false }

/-- Modelled from the spec: Player::revive, whose code is not in World.cpp;
it makes the player alive again. -/
def Player.revive (p : Player) : Player := { p with alive := true }

/-- Modelled from the spec: Player::harm, whose code is not in World.cpp;
it takes the damage off the health, and the player is killed only when the
health reaches zero. -/
def Player.harm (p : Player) (amount : Int) : Player :=
  let h := p.health - amount
  if h ≤ 0 then { p with health := h, alive := false } else { p with health := h }

/-- Write through the reference player, which is scene->player. -/
def World.setPlayer (w : World) (p : Player) : World :=
  { w with scene := { w.scene with player := p } }

/-- Draw an index into a constant list of file names and read the entry. -/
def pickFile (env : Env) (gen : Nat) (files : List String) : String × Nat :=
  let r := env.uniform gen 0 (files.length - 1)
  (files.getD r.1 "", r.2)

/-- World::loadScene: the scene is replaced by the one loaded from the path
and a randomly chosen piece of music is started. The source takes the path by
reference and reads it after the old scene is deleted: path is here what that
read returns, so a caller whose string is owned by the deleted scene passes
Env.readFreed of it. -/
def loadScene (env : Env) (path : String) (w : World) : World :=
  let r := pickFile env w.generator env.MUSIC_PLAYLIST
  { w with
    currentScenePath := path
    scene := env.getScene path
    generator := r.2
    audio := w.audio ++ [AudioEvent.music (env.dataDir ++ r.1)] }

/-- World::collidesWithWalls over the walls still to visit: the loop returns
true at the first wall whose physBody overlaps the collider. -/
def collidesWithWallsFrom (env : Env) (collider : BoxCollider) : List PhysicsEntity → Bool
  | [] => false
  | wall :: rest =>
    if env.collidesWith collider wall.physBody then true
    else collidesWithWallsFrom env collider rest

/-- World::collidesWithWalls. -/
def collidesWithWalls (env : Env) (w : World) (collider : BoxCollider) : Bool :=
  collidesWithWallsFrom env collider w.scene.walls

/-- Reload on F5 (the first statement of World::update). -/
def reloadOnKey (env : Env) (w : World) : World :=
  if env.isKeyDown Scancode.F5 then loadScene env w.currentScenePath w else w

/-- Revive step: a player that is not alive is put at the start marker and revived. -/
def reviveStep (w : World) : World :=
  let player := w.scene.player
  if !player.isAlive then
    w.setPlayer ({ player with position := w.scene.start.position }).revive
  else w

/-- View and new velocity of the player: mouseLook, then move. -/
def inputStep (env : Env) (w : World) : World :=
  w.setPlayer (env.move (env.mouseLook w.scene.player))

/-- Y collision; pos is the provisional position computed before the three tests. -/
def collideY (env : Env) (pos : Vector3f) (w : World) : World :=
  let player := w.scene.player
  let bboxY : BoxCollider := ⟨⟨player.position.x, pos.y, player.position.z⟩, player.scale⟩
  if collidesWithWalls env w bboxY then
    let blue := w.scene.bluePortal
    let orange := w.scene.orangePortal
    let portaling :=
      if blue.isOpen && orange.isOpen then
        let p1 :=
          if env.inPortal blue bboxY then
            if blue.rotation.x = env.rad (-90) ∨ blue.rotation.x = env.rad 90 then true else false
          else false
        if env.inPortal orange bboxY then
          if orange.rotation.x = env.rad (-90) ∨ orange.rotation.x = env.rad 90 then true else p1
        else p1
      else false
    if !portaling then
      let w1 :=
        if player.velocity.y < 0 then
          let w0 :=
            if player.velocity.y < -env.HURT_VELOCITY then
              let r := pickFile env w.generator env.PLAYER_FALL_SOUND
              { w with
                generator := r.2
                audio := w.audio ++ [AudioEvent.sound (env.dataDir ++ r.1)] }
            else w
          w0.setPlayer { w0.scene.player with grounded := true }
        else w
      w1.setPlayer { w1.scene.player with
        velocity := { w1.scene.player.velocity with y := 0 } }
    else w
  else w

/-- X collision. The orange test reads the X rotation of the blue portal, as the source does. -/
def collideX (env : Env) (pos : Vector3f) (w : World) : World :=
  let player := w.scene.player
  let bboxX : BoxCollider := ⟨⟨pos.x, player.position.y, player.position.z⟩, player.scale⟩
  if collidesWithWalls env w bboxX then
    let blue := w.scene.bluePortal
    let orange := w.scene.orangePortal
    let portaling :=
      if blue.isOpen && orange.isOpen then
        let p1 :=
          if env.inPortal blue bboxX then
            if blue.rotation.x = 0 ∧
                (blue.rotation.y = env.rad (-90) ∨ blue.rotation.y = env.rad 90) then true
            else false
          else false
        if env.inPortal orange bboxX then
          if blue.rotation.x = 0 ∧
              (orange.rotation.y = env.rad (-90) ∨ orange.rotation.y = env.rad 90) then true
          else p1
        else p1
      else false
    if !portaling then
      w.setPlayer { player with velocity := { player.velocity with x := 0 } }
    else w
  else w

/-- Z collision. -/
def collideZ (env : Env) (pos : Vector3f) (w : World) : World :=
  let player := w.scene.player
  let bboxZ : BoxCollider := ⟨⟨player.position.x, player.position.y, pos.z⟩, player.scale⟩
  if collidesWithWalls env w bboxZ then
    let blue := w.scene.bluePortal
    let orange := w.scene.orangePortal
    let portaling :=
      if blue.isOpen && orange.isOpen then
        let p1 :=
          if env.inPortal blue bboxZ then
            if blue.rotation.x = 0 ∧
                (blue.rotation.y = 0 ∨ blue.rotation.y = env.rad 180) then true
            else false
          else false
        if env.inPortal orange bboxZ then
          if orange.rotation.x = 0 ∧
              (orange.rotation.y = 0 ∨ orange.rotation.y = env.rad 180) then true
          else p1
        else p1
      else false
    if !portaling then
      w.setPlayer { player with velocity := { player.velocity with z := 0 } }
    else w
  else w

/-- The collision stage: the provisional position is computed once, then the
Y, X and Z tests run in this order. -/
def collisionStage (env : Env) (w : World) : World :=
  let pos := w.scene.player.position.add w.scene.player.velocity
  collideZ env pos (collideX env pos (collideY env pos w))

/-- Body of the loop over the hazard volumes, for one volume. -/
def acidBody (env : Env) (player : Player) (acid : PhysicsEntity) : Player :=
  let playerCollider : BoxCollider := ⟨player.position, player.scale⟩
  let acidCollider : BoxCollider := ⟨acid.position, acid.scale⟩
  if env.collidesWith playerCollider acidCollider then player.kill else player

/-- The loop over scene->volumes. -/
def acidStage (env : Env) (w : World) : World :=
  w.setPlayer (w.scene.volumes.foldl (acidBody env) w.scene.player)

/-- Body of the loop over the triggers, for one trigger. In the map branch
loadScene receives a reference to trigger.reference, which is owned by the
scene that loadScene deletes before it reads the path. -/
def triggerBody (env : Env) (trigger : Trigger) (w : World) : Option World :=
  let player := w.scene.player
  let playerCollider : BoxCollider := ⟨player.position, player.scale⟩
  let triggerCollider : BoxCollider := ⟨trigger.position, trigger.scale⟩
  if env.collidesWith playerCollider triggerCollider then
    if trigger.type = "radiation" then
      some (w.setPlayer (player.harm 10))
    else if trigger.type = "death" then
      some (w.setPlayer player.kill)
    else if trigger.type = "win" then
      let w1 :=
        if w.currentLevel + 1 < w.mapList.length then
          { w with currentLevel := w.currentLevel + 1 }
        else w
      (w1.mapList.get? w1.currentLevel).map (fun path => loadScene env path w1)
    else if trigger.type = "map" then
      some (loadScene env (env.readFreed trigger.reference) w)
    else if trigger.type = "button" then
      some w
    else
      some w
  else some w

/-- The loop over scene->triggers from index i on. The bound
scene->triggers.size() is read again at every iteration, from the scene that
is current then; every test of the loop condition takes one unit of budget.
After a win or map branch has loaded a scene the source goes on with the next
index, over the triggers of the loaded scene, and reads player through the
reference bound before the load (undefined behaviour); here the body reads
the player of the loaded scene. -/
def triggerLoop (env : Env) : Nat → Nat → World → Option World
  | 0, _, _ => none
  | budget + 1, i, w =>
    if h : i < w.scene.triggers.length then
      (triggerBody env (w.scene.triggers.get ⟨i, h⟩) w).bind
        (triggerLoop env budget (i + 1))
    else some w

/-- The loop over scene->triggers. -/
def triggerStage (env : Env) (budget : Nat) (w : World) : Option World :=
  triggerLoop env budget 0 w

/-- The pass through a portal: with both portals open, a box that goes
through the blue portal is moved to the orange one, then a box that goes
through the orange portal is moved to the blue one. -/
def teleportStep (env : Env) (w : World) : World :=
  let player := w.scene.player
  let blue := w.scene.bluePortal
  let orange := w.scene.orangePortal
  let pos := player.position.add player.velocity
  let playerCollider : BoxCollider := ⟨pos, player.scale⟩
  if blue.isOpen && orange.isOpen then
    let p1 : Player :=
      if env.throughPortal blue playerCollider then
        let rotation := orange.rotation.y - blue.rotation.y + env.rad 180
        let velocity := env.length player.velocity
        { player with
          position := orange.position
          rotation := { player.rotation with y := player.rotation.y + rotation }
          velocity := (env.getDirection orange).scale velocity }
      else player
    let p2 : Player :=
      if env.throughPortal orange playerCollider then
        let rotation := blue.rotation.y - orange.rotation.y + env.rad 180
        let velocity := env.length p1.velocity
        { p1 with
          position := blue.position
          rotation := { p1.rotation with y := p1.rotation.y + rotation }
          velocity := (env.getDirection blue).scale velocity }
      else p1
    w.setPlayer p2
  else w

/-- The velocity is added to the position of the player. -/
def integrate (w : World) : World :=
  let player := w.scene.player
  w.setPlayer { player with position := player.position.add player.velocity }

/-- The camera is parented to the player; the two quotients are quotients of
floats. -/
def cameraSync (env : Env) (w : World) : World :=
  let s := w.scene
  { w with scene := { s with camera :=
      { s.camera with
        perspective := true
        aspect := env.divide env.viewportSize.1 env.viewportSize.2
        position := s.player.position.add ⟨0, env.divide s.player.scale.y 2, 0⟩
        rotation := s.player.rotation } } }

/-- End of level: closer than 1 to the end marker, the level index advances
if it is not the last one and the level at the index is loaded. -/
def endOfLevel (env : Env) (w : World) : Option World :=
  let distToEnd := env.length (w.scene.endMarker.position.sub w.scene.player.position)
  if distToEnd < 1 then
    let w1 :=
      if w.currentLevel + 1 < w.mapList.length then
        { w with currentLevel := w.currentLevel + 1 }
      else w
    match w1.mapList.get? w1.currentLevel with
    | some path => some (loadScene env path w1)
    | none => none
  else some w

/-- The statements of World::update after the loop over the triggers and
before the end-of-level check: pass through a portal, integration, camera. -/
def beforeEndCheck (env : Env) (w : World) : World :=
  cameraSync env (integrate (teleportStep env w))

/-- The statements of World::update after the loop over the triggers. -/
def afterTriggers (env : Env) (w : World) : Option World :=
  endOfLevel env (beforeEndCheck env w)

/-- The statements of World::update from the loop over the hazard volumes on. -/
def fromAcids (env : Env) (budget : Nat) (w : World) : Option World :=
  (triggerStage env budget (acidStage env w)).bind (afterTriggers env)

/-- World::update. -/
def update (env : Env) (budget : Nat) (w : World) : Option World :=
  fromAcids env budget (collisionStage env (inputStep env (reviveStep (reloadOnKey env w))))

/-- Constant INT_MAX of climits, the initial value of intersection (the
conversion to float is a rounding, outside the model). -/
def INT_MAX : Scalar := 2147483647

/-- The loop of World::shootPortal that looks for the closest intersection,
over the walls still to visit; the state is closestWall (none for nullptr)
and intersection. -/
def closestLoop (env : Env) (bullet : Ray) :
    List PhysicsEntity → Option PhysicsEntity × Scalar → Option PhysicsEntity × Scalar
  | [], st => st
  | wall :: rest, (closestWall, intersection) =>
    match env.rayCollides bullet wall with
    | some (tNear, _) =>
      if tNear < intersection then closestLoop env bullet rest (some wall, tNear)
      else closestLoop env bullet rest (closestWall, intersection)
    | none => closestLoop env bullet rest (closestWall, intersection)

/-- The ray shot by World::shootPortal: from the camera along its direction. -/
def bulletOf (env : Env) (s : Scene) : Ray :=
  ⟨s.camera.position, env.toDirection s.camera.rotation⟩

/-- The closest wall and its ray parameter, as found by World::shootPortal. -/
def closestHit (env : Env) (s : Scene) : Option PhysicsEntity × Scalar :=
  closestLoop env (bulletOf env s) s.walls (none, INT_MAX)

/-- The else branch of World::shootPortal: the portal of the colour is closed. -/
def retract (button : Int) (w : World) : World :=
  if button = 1 then
    { w with scene := { w.scene with bluePortal := { w.scene.bluePortal with isOpen := false } } }
  else
    { w with scene := { w.scene with orangePortal := { w.scene.orangePortal with isOpen := false } } }

/-- The portal World::shootPortal builds before placeOnWall:
default-constructed, with openSince and the mask texture set. -/
def freshPortal (env : Env) : Portal :=
  { env.defaultPortal with
    openSince := env.getTicks
    maskTex := { env.defaultPortal.maskTex with diffuse := env.getTexture "portalmask.png" } }

/-- The assignments of the branch button == 1: texture and colour of the blue portal. -/
def paintBlue (env : Env) (portal : Portal) : Portal :=
  { portal with
    material := { portal.material with diffuse := env.getTexture "blueportal.png" }
    color := PortalColor.blue }

/-- The assignments of the else branch: texture and colour of the orange portal. -/
def paintOrange (env : Env) (portal : Portal) : Portal :=
  { portal with
    material := { portal.material with diffuse := env.getTexture "orangeportal.png" }
    color := PortalColor.orange }

/-- The portal built by World::shootPortal for a wall and a ray parameter,
before its colour is set: placed on the box of the wall at the impact point
camera position + direction * intersection. -/
def portalOnWall (env : Env) (s : Scene) (closestWall : PhysicsEntity) (intersection : Scalar) :
    Portal :=
  let cameraDir := env.toDirection s.camera.rotation
  let wall : BoxCollider := ⟨closestWall.position, closestWall.scale⟩
  let ipos := s.camera.position.add (cameraDir.scale intersection)
  env.placeOnWall (freshPortal env) s.camera.position wall ipos

/-- World::shootPortal. -/
def shootPortal (env : Env) (button : Int) (w : World) : World :=
  match closestHit env w.scene with
  | (some closestWall, intersection) =>
    if closestWall.material.portalable then
      let portal := portalOnWall env w.scene closestWall intersection
      if button = 1 then
        { w with scene := { w.scene with bluePortal := paintBlue env portal } }
      else
        { w with scene := { w.scene with orangePortal := paintOrange env portal } }
    else retract button w
  | (none, _) => retract button w

/-! ## Predicates used by the statements -/

/-- The level index is a valid index into the level list. -/
def LevelOk (w : World) : Prop := w.currentLevel < w.mapList.length

/-- Two worlds have the same level list and the same level index. -/
def SameLevel (w w' : World) : Prop :=
  w'.mapList = w.mapList ∧ w'.currentLevel = w.currentLevel

/-- The level list is kept and the level index is valid. -/
def KeepsLevels (w w' : World) : Prop :=
  w'.mapList = w.mapList ∧ LevelOk w'

/-- The scene has at most B triggers. -/
def TriggersWithin (B : Nat) (w : World) : Prop := w.scene.triggers.length ≤ B

/-! ## A concrete environment and concrete scenes, for evaluating the step -/

/-- Two axis-aligned boxes overlap on one axis: the centres are closer than
half the sum of the sizes. -/
def overlapsOnAxis (c1 s1 c2 s2 : Scalar) : Bool :=
  decide (2 * (c1 - c2) < s1 + s2 ∧ 2 * (c2 - c1) < s1 + s2)

/-- Overlap test of two axis-aligned boxes. -/
def boxesOverlap (a b : BoxCollider) : Bool :=
  overlapsOnAxis a.position.x a.size.x b.position.x b.size.x &&
  overlapsOnAxis a.position.y a.size.y b.position.y b.size.y &&
  overlapsOnAxis a.position.z a.size.z b.position.z b.size.z

/-- Sum of the absolute values of the components; it is the length of a
vector that is parallel to an axis. -/
def axisLength (v : Vector3f) : Scalar := (v.x.natAbs + v.y.natAbs + v.z.natAbs : Nat)

/-- Ray test for a ray that runs towards negative z, against the box of an
entity: the ray passes inside the box in x and y and the near face is in
front of the origin; tNear and tFar are the distances to the two faces. -/
def rayAlongZ (r : Ray) (e : PhysicsEntity) : Option (Scalar × Scalar) :=
  if overlapsOnAxis r.origin.x 0 e.position.x e.scale.x ∧
      overlapsOnAxis r.origin.y 0 e.position.y e.scale.y ∧
      e.position.z + e.scale.z / 2 < r.origin.z then
    some (r.origin.z - e.position.z - e.scale.z / 2, r.origin.z - e.position.z + e.scale.z / 2)
  else none

/-- Direction of a rotation about the Y axis by a multiple of 90 degrees,
(-sin y, 0, -cos y); other angles are sent to the direction of angle 0. -/
def dirOfYaw (rotation : Vector3f) : Vector3f :=
  if rotation.y = 90 then ⟨-1, 0, 0⟩
  else if rotation.y = 180 then ⟨0, 0, 1⟩
  else if rotation.y = -90 then ⟨1, 0, 0⟩
  else ⟨0, 0, -1⟩

/-- The zero vector. -/
def zero3 : Vector3f := ⟨0, 0, 0⟩

/-- A closed portal at the origin. -/
def closedPortal (c : PortalColor) : Portal :=
  { position := zero3, rotation := zero3, scale := ⟨1, 2, 1⟩, isOpen := false, openSince := 0,
    color := c, material := ⟨false, ""⟩, maskTex := ⟨false, ""⟩ }

/-- An open portal of a colour at a position, turned about the Y axis. -/
def openPortal (c : PortalColor) (pos : Vector3f) (yaw : Scalar) : Portal :=
  { closedPortal c with position := pos, rotation := ⟨0, yaw, 0⟩, isOpen := true }

/-- A player standing still at a position, alive, with health 100. -/
def playerAt (pos : Vector3f) : Player :=
  { position := pos, velocity := zero3, rotation := zero3, scale := ⟨1, 2, 1⟩,
    alive := true, grounded := false, health := 100 }

/-- A scene with a player at the origin, the end marker far away and nothing else. -/
def bareScene : Scene :=
  { player := playerAt zero3
    camera := { position := zero3, rotation := zero3, aspect := 1, perspective := true }
    start := ⟨zero3, zero3, ⟨1, 1, 1⟩⟩
    endMarker := ⟨⟨0, 0, 100⟩, zero3, ⟨1, 1, 1⟩⟩
    walls := []
    volumes := []
    triggers := []
    bluePortal := closedPortal PortalColor.blue
    orangePortal := closedPortal PortalColor.orange }

/-- A trigger of a kind around the origin. -/
def triggerAtOrigin (kind ref : String) : Trigger :=
  { position := zero3, scale := ⟨2, 2, 2⟩, type := kind, reference := ref }

/-- The scenes on disk: the first level has a win trigger on the player, every
other path gives the bare scene. -/
def demoScenes (path : String) : Scene :=
  if path = "level1.xml" then { bareScene with triggers := [triggerAtOrigin "win" ""] }
  else bareScene

/-- A concrete environment: no key is down, the player gets no input, boxes
are axis-aligned, angles are kept in degrees, a freed string is found as it
was, quotients are rounded down. -/
def demoEnv : Env :=
  { rad := fun d => d
    HURT_VELOCITY := 5
    MUSIC_PLAYLIST := ["track1.ogg", "track2.ogg"]
    PLAYER_FALL_SOUND := ["fall.ogg"]
    dataDir := "data/"
    getScene := demoScenes
    uniform := fun gen lo _ => (lo, gen + 1)
    isKeyDown := fun _ => false
    mouseLook := fun p => p
    move := fun p => p
    collidesWith := boxesOverlap
    inPortal := fun portal box => boxesOverlap box ⟨portal.position, portal.scale⟩
    throughPortal := fun portal box => decide (box.position = portal.position)
    getDirection := fun portal => dirOfYaw portal.rotation
    length := axisLength
    toDirection := dirOfYaw
    rayCollides := rayAlongZ
    defaultPortal := closedPortal PortalColor.blue
    placeOnWall := fun portal _ _ point =>
      { portal with position := point, rotation := zero3, isOpen := true }
    getTexture := fun name => name
    getTicks := 1000
    viewportSize := (800, 600)
    readFreed := fun s => s
    divide := fun a b => a / b }

/-- A world on the first of three levels, in its scene. -/
def demoWorld : World :=
  { scene := demoScenes "level1.xml"
    mapList := ["level1.xml", "level2.xml", "level3.xml"]
    currentLevel := 0
    currentScenePath := "level1.xml"
    generator := 0
    audio := [] }

/-- The demo world with the end marker moved onto the player. -/
def nearEndWorld : World :=
  { demoWorld with scene := { demoWorld.scene with endMarker := ⟨zero3, zero3, ⟨1, 1, 1⟩⟩ } }

/-- A wall across the z axis, centred at depth z and 2 thick, with the
portalable flag given. -/
def wallAt (z : Scalar) (portalable : Bool) : PhysicsEntity :=
  { position := ⟨0, 0, z⟩, rotation := zero3, scale := ⟨4, 4, 2⟩,
    material := ⟨portalable, "wall.png"⟩, physBody := ⟨⟨0, 0, z⟩, ⟨4, 4, 2⟩⟩ }

/-- The camera at the origin looks at a wall that is not portalable (ray
parameter 1); a portalable wall stands behind it (ray parameter 4). Both
portals are open, away from the walls. -/
def occludedWorld : World :=
  { demoWorld with scene := { bareScene with
      walls := [wallAt (-2) false, wallAt (-5) true]
      bluePortal := openPortal PortalColor.blue ⟨3, 0, 0⟩ 0
      orangePortal := openPortal PortalColor.orange ⟨-3, 0, 0⟩ 0 } }

/-- The camera at the origin looks at a portalable wall (ray parameter 3); a
wall that is not portalable stands behind it (ray parameter 6). -/
def facingWallWorld : World :=
  { demoWorld with scene := { bareScene with walls := [wallAt (-4) true, wallAt (-7) false] } }

/-- A player at (0, 0, -2) that moves by (0, 0, 2) in the tick. -/
def walkingPlayer : Player := { playerAt ⟨0, 0, -2⟩ with velocity := ⟨0, 0, 2⟩ }

/-- Only the blue portal is open, at the origin, where the provisional box
of the walking player is. -/
def onePortalWorld : World :=
  { demoWorld with scene := { bareScene with
      player := walkingPlayer
      bluePortal := openPortal PortalColor.blue zero3 0 } }

/-- Both portals are open: the blue one at the origin, where the provisional
box of the walking player is, the orange one at (10, 0, 0), turned by 90 degrees. -/
def teleWorld : World :=
  { demoWorld with scene := { bareScene with
      player := walkingPlayer
      bluePortal := openPortal PortalColor.blue zero3 0
      orangePortal := openPortal PortalColor.orange ⟨10, 0, 0⟩ 90 } }

/-- The world teleWorld with the end marker at (8, 0, 0), where the player
is after the pass through the portal and the integration. -/
def teleEndWorld : World :=
  { teleWorld with scene := { teleWorld.scene with endMarker := ⟨⟨8, 0, 0⟩, zero3, ⟨1, 1, 1⟩⟩ } }

/-- Both portals are open at the same place with the same rotation, where the
provisional box of the walking player is. -/
def twinPortalWorld : World :=
  { demoWorld with scene := { bareScene with
      player := walkingPlayer
      bluePortal := openPortal PortalColor.blue zero3 0
      orangePortal := openPortal PortalColor.orange zero3 0 } }

/-- A hazard volume around the origin. -/
def acidAtOrigin : PhysicsEntity :=
  { position := zero3, rotation := zero3, scale := ⟨2, 2, 2⟩,
    material := ⟨false, "acid.png"⟩, physBody := ⟨zero3, ⟨2, 2, 2⟩⟩ }

/-- The player stands in a hazard volume and on a win trigger, at level 0 of 3. -/
def acidWinWorld : World :=
  { demoWorld with scene := { demoScenes "level1.xml" with volumes := [acidAtOrigin] } }

/-- The player stands in a hazard volume, on the end marker. -/
def acidEndWorld : World :=
  { demoWorld with scene := { bareScene with
      volumes := [acidAtOrigin]
      endMarker := ⟨zero3, zero3, ⟨1, 1, 1⟩⟩ } }

/-- The player stands in a hazard volume, on a radiation trigger and on a
button trigger; the end marker is far away. -/
def acidWorld : World :=
  { demoWorld with scene := { bareScene with
      volumes := [acidAtOrigin]
      triggers := [triggerAtOrigin "radiation" "", triggerAtOrigin "button" ""] } }

/-- The box of the player overlaps the box of an entity or trigger at a
position with a scale. -/
abbrev touches (env : Env) (p : Player) (position scale : Vector3f) : Prop :=
  env.collidesWith ⟨p.position, p.scale⟩ ⟨position, scale⟩ = true

/-- The scene has the triggers T and a player that is not alive, with box
given by pos and sc. -/
def DeadAt (T : List Trigger) (pos sc : Vector3f) (w : World) : Prop :=
  w.scene.triggers = T ∧ w.scene.player.position = pos ∧ w.scene.player.scale = sc ∧
    w.scene.player.alive = false

/-! ## The collision stage, test by test -/

/-- The box of the Y test: the current position with y advanced. -/
def candidateY (p : Player) (pos : Vector3f) : BoxCollider :=
  ⟨⟨p.position.x, pos.y, p.position.z⟩, p.scale⟩

/-- The box of the X test: the current position with x advanced. -/
def candidateX (p : Player) (pos : Vector3f) : BoxCollider :=
  ⟨⟨pos.x, p.position.y, p.position.z⟩, p.scale⟩

/-- The box of the Z test: the current position with z advanced. -/
def candidateZ (p : Player) (pos : Vector3f) : BoxCollider :=
  ⟨⟨p.position.x, p.position.y, pos.z⟩, p.scale⟩

/-- The value of the variable portaling at the end of the Y test. -/
def bypassY (env : Env) (s : Scene) (box : BoxCollider) : Bool :=
  s.bluePortal.isOpen && s.orangePortal.isOpen &&
    ((env.inPortal s.bluePortal box &&
        decide (s.bluePortal.rotation.x = env.rad (-90) ∨ s.bluePortal.rotation.x = env.rad 90)) ||
     (env.inPortal s.orangePortal box &&
        decide (s.orangePortal.rotation.x = env.rad (-90) ∨
          s.orangePortal.rotation.x = env.rad 90)))

/-- The value of the variable portaling at the end of the X test; the test
of the orange portal reads the X rotation of the blue portal, as the source does. -/
def bypassX (env : Env) (s : Scene) (box : BoxCollider) : Bool :=
  s.bluePortal.isOpen && s.orangePortal.isOpen &&
    ((env.inPortal s.bluePortal box &&
        decide (s.bluePortal.rotation.x = 0 ∧
          (s.bluePortal.rotation.y = env.rad (-90) ∨ s.bluePortal.rotation.y = env.rad 90))) ||
     (env.inPortal s.orangePortal box &&
        decide (s.bluePortal.rotation.x = 0 ∧
          (s.orangePortal.rotation.y = env.rad (-90) ∨ s.orangePortal.rotation.y = env.rad 90))))

/-- The value of the variable portaling at the end of the Z test. -/
def bypassZ (env : Env) (s : Scene) (box : BoxCollider) : Bool :=
  s.bluePortal.isOpen && s.orangePortal.isOpen &&
    ((env.inPortal s.bluePortal box &&
        decide (s.bluePortal.rotation.x = 0 ∧
          (s.bluePortal.rotation.y = 0 ∨ s.bluePortal.rotation.y = env.rad 180))) ||
     (env.inPortal s.orangePortal box &&
        decide (s.orangePortal.rotation.x = 0 ∧
          (s.orangePortal.rotation.y = 0 ∨ s.orangePortal.rotation.y = env.rad 180))))

/-- The Y test blocks: the box overlaps a wall and portaling is false. -/
def blockedY (env : Env) (pos : Vector3f) (w : World) : Bool :=
  collidesWithWalls env w (candidateY w.scene.player pos) &&
    !bypassY env w.scene (candidateY w.scene.player pos)

/-- The X test blocks: the box overlaps a wall and portaling is false. -/
def blockedX (env : Env) (pos : Vector3f) (w : World) : Bool :=
  collidesWithWalls env w (candidateX w.scene.player pos) &&
    !bypassX env w.scene (candidateX w.scene.player pos)

/-- The Z test blocks: the box overlaps a wall and portaling is false. -/
def blockedZ (env : Env) (pos : Vector3f) (w : World) : Bool :=
  collidesWithWalls env w (candidateZ w.scene.player pos) &&
    !bypassZ env w.scene (candidateZ w.scene.player pos)

/-- The fall sound is played: the generator advances and the sound is logged. -/
def playFallSound (env : Env) (w : World) : World :=
  { w with
    generator := (pickFile env w.generator env.PLAYER_FALL_SOUND).2
    audio := w.audio ++
      [AudioEvent.sound (env.dataDir ++ (pickFile env w.generator env.PLAYER_FALL_SOUND).1)] }

/-- What the Y test does when it blocks: a falling player is grounded, with
the fall sound beyond the hurt velocity, and the Y velocity is zeroed. -/
def stopY (env : Env) (w : World) : World :=
  let vy := w.scene.player.velocity.y
  let w0 := if vy < 0 ∧ vy < -env.HURT_VELOCITY then playFallSound env w else w
  w0.setPlayer { w.scene.player with
    grounded := if vy < 0 then true else w.scene.player.grounded
    velocity := { w.scene.player.velocity with y := 0 } }

/-- What the X test does when it blocks: the X velocity is zeroed. -/
def stopX (w : World) : World :=
  w.setPlayer { w.scene.player with velocity := { w.scene.player.velocity with x := 0 } }

/-- What the Z test does when it blocks: the Z velocity is zeroed. -/
def stopZ (w : World) : World :=
  w.setPlayer { w.scene.player with velocity := { w.scene.player.velocity with z := 0 } }

/-- What the three tests read besides the velocity is the same in two worlds:
walls, portals, position and scale of the player. -/
def SameStatics (w w' : World) : Prop :=
  w'.scene.walls = w.scene.walls ∧ w'.scene.bluePortal = w.scene.bluePortal ∧
    w'.scene.orangePortal = w.scene.orangePortal ∧
    w'.scene.player.position = w.scene.player.position ∧
    w'.scene.player.scale = w.scene.player.scale

/-- The provisional position computed before the three tests. -/
def provisional (w : World) : Vector3f := w.scene.player.position.add w.scene.player.velocity

/-- A thick floor whose top face is at height -1. -/
def floorWall : PhysicsEntity :=
  { position := ⟨0, -6, 0⟩, rotation := zero3, scale := ⟨20, 10, 20⟩,
    material := ⟨true, "floor.png"⟩, physBody := ⟨⟨0, -6, 0⟩, ⟨20, 10, 20⟩⟩ }

/-- The player stands on the floor and moves by (1, -6, 1): it falls faster
than the hurt velocity 5 of the demo environment. The blue portal is open in
the floor under the player, turned by 90 degrees about X; the orange portal
is closed. -/
def landingWorld : World :=
  { demoWorld with scene := { bareScene with
      player := { playerAt zero3 with velocity := ⟨1, -6, 1⟩ }
      walls := [floorWall]
      bluePortal :=
        { closedPortal PortalColor.blue with
          position := ⟨0, -6, 0⟩, rotation := ⟨90, 0, 0⟩, isOpen := true } } }

/-- A wall to the right of the origin, facing the negative x direction. -/
def sideWall : PhysicsEntity :=
  { position := ⟨3, 0, 0⟩, rotation := zero3, scale := ⟨2, 4, 4⟩,
    material := ⟨true, "wall.png"⟩, physBody := ⟨⟨3, 0, 0⟩, ⟨2, 4, 4⟩⟩ }

/-- The player moves by (2, 0, 0) into the side wall, inside the orange
portal, which is open at (2, 0, 0) with X rotation 0 and Y rotation 90; the
blue portal is open far away with X rotation 90. -/
def sidePortalWorld : World :=
  { demoWorld with scene := { bareScene with
      player := { playerAt zero3 with velocity := ⟨2, 0, 0⟩ }
      walls := [sideWall]
      bluePortal :=
        { closedPortal PortalColor.blue with
          position := ⟨-20, 0, 0⟩, rotation := ⟨90, 0, 0⟩, isOpen := true }
      orangePortal := openPortal PortalColor.orange ⟨2, 0, 0⟩ 90 } }

/-- The world sidePortalWorld with the rotations the other way round: the
orange portal has X rotation 45, the blue portal has X rotation 0. -/
def tiltedPortalWorld : World :=
  { demoWorld with scene := { bareScene with
      player := { playerAt zero3 with velocity := ⟨2, 0, 0⟩ }
      walls := [sideWall]
      bluePortal := openPortal PortalColor.blue ⟨-20, 0, 0⟩ 0
      orangePortal :=
        { closedPortal PortalColor.orange with
          position := ⟨2, 0, 0⟩, rotation := ⟨45, 90, 0⟩, isOpen := true } } }

/-- Bypass of the X test as the specification words it: each portal is
tested against its own rotation, zero X rotation and Y rotation of 90 degrees
either way. -/
def bypassXOwnRotation (env : Env) (s : Scene) (box : BoxCollider) : Bool :=
  s.bluePortal.isOpen && s.orangePortal.isOpen &&
    ((env.inPortal s.bluePortal box &&
        decide (s.bluePortal.rotation.x = 0 ∧
          (s.bluePortal.rotation.y = env.rad (-90) ∨ s.bluePortal.rotation.y = env.rad 90))) ||
     (env.inPortal s.orangePortal box &&
        decide (s.orangePortal.rotation.x = 0 ∧
          (s.orangePortal.rotation.y = env.rad (-90) ∨ s.orangePortal.rotation.y = env.rad 90))))

/-- The demo environment with a second level whose player starts on the end marker. -/
def endAtSpawnEnv : Env :=
  { demoEnv with getScene := fun path =>
      if path = "level2.xml" then { bareScene with endMarker := ⟨zero3, zero3, ⟨1, 1, 1⟩⟩ }
      else demoScenes path }

/-- The demo environment with a second level that has a button trigger and
then a win trigger on its player. -/
def laterWinEnv : Env :=
  { demoEnv with getScene := fun path =>
      if path = "level2.xml" then
        { bareScene with triggers := [triggerAtOrigin "button" "", triggerAtOrigin "win" ""] }
      else demoScenes path }

/-- The demo environment, except that a freed string of 16 characters or more
is found overwritten. -/
def garbledEnv : Env :=
  { demoEnv with readFreed := fun s => if s.length < 16 then s else "garbage" }

/-- A map trigger around the origin whose reference has 29 characters. -/
def longMapTrigger : Trigger := triggerAtOrigin "map" "maps/bonus/secret_level_7.xml"

theorem SameLevel.levelOk {w w' : World} (h : SameLevel w w') (hw : LevelOk w) : LevelOk w' := by
  unfold LevelOk at *
  rw [h.1, h.2]; exact hw

theorem SameLevel.trans {a b c : World} (h1 : SameLevel a b) (h2 : SameLevel b c) :
    SameLevel a c := ⟨h2.1.trans h1.1, h2.2.trans h1.2⟩

theorem sameLevel_loadScene (env : Env) (path : String) (w : World) :
    SameLevel w (loadScene env path w) := ⟨rfl, rfl⟩

theorem sameLevel_setPlayer (w : World) (p : Player) : SameLevel w (w.setPlayer p) := ⟨rfl, rfl⟩

theorem sameLevel_reloadOnKey (env : Env) (w : World) : SameLevel w (reloadOnKey env w) := by
  unfold reloadOnKey; split <;> exact ⟨rfl, rfl⟩

theorem sameLevel_reviveStep (w : World) : SameLevel w (reviveStep w) := by
  unfold reviveStep; simp only []; split <;> exact ⟨rfl, rfl⟩

theorem sameLevel_inputStep (env : Env) (w : World) : SameLevel w (inputStep env w) := ⟨rfl, rfl⟩

theorem sameLevel_collideY (env : Env) (pos : Vector3f) (w : World) :
    SameLevel w (collideY env pos w) := by
  unfold collideY; simp only []
  split_ifs <;> exact ⟨rfl, rfl⟩

theorem sameLevel_collideX (env : Env) (pos : Vector3f) (w : World) :
    SameLevel w (collideX env pos w) := by
  unfold collideX; simp only []
  split_ifs <;> exact ⟨rfl, rfl⟩

theorem sameLevel_collideZ (env : Env) (pos : Vector3f) (w : World) :
    SameLevel w (collideZ env pos w) := by
  unfold collideZ; simp only []
  split_ifs <;> exact ⟨rfl, rfl⟩

theorem sameLevel_collisionStage (env : Env) (w : World) :
    SameLevel w (collisionStage env w) := by
  unfold collisionStage
  exact ((sameLevel_collideY env _ w).trans (sameLevel_collideX env _ _)).trans
    (sameLevel_collideZ env _ _)

theorem sameLevel_acidStage (env : Env) (w : World) : SameLevel w (acidStage env w) := ⟨rfl, rfl⟩

theorem sameLevel_teleportStep (env : Env) (w : World) : SameLevel w (teleportStep env w) := by
  unfold teleportStep; simp only []
  split <;> exact ⟨rfl, rfl⟩

theorem sameLevel_integrate (w : World) : SameLevel w (integrate w) := ⟨rfl, rfl⟩

theorem sameLevel_cameraSync (env : Env) (w : World) : SameLevel w (cameraSync env w) := ⟨rfl, rfl⟩

/-- The statements before the hazard loop keep the level list and the level index. -/
theorem sameLevel_beforeAcids (env : Env) (w : World) :
    SameLevel w (collisionStage env (inputStep env (reviveStep (reloadOnKey env w)))) :=
  (((sameLevel_reloadOnKey env w).trans (sameLevel_reviveStep _)).trans
    (sameLevel_inputStep env _)).trans (sameLevel_collisionStage env _)

/-- Advancing the index under the guard of the source keeps it valid. -/
theorem levelOk_advance (w : World) (hw : LevelOk w) :
    LevelOk (if w.currentLevel + 1 < w.mapList.length then
      { w with currentLevel := w.currentLevel + 1 } else w) := by
  unfold LevelOk at *
  split
  · assumption
  · exact hw

/-- One trigger, from a valid index: the body returns, keeps the level list
and leaves a valid index. -/
theorem triggerBody_levelOk (env : Env) (t : Trigger) (w : World) (hw : LevelOk w) :
    ∃ w', triggerBody env t w = some w' ∧ KeepsLevels w w' := by
  unfold triggerBody; simp only []
  split_ifs with hc h1 h2 h3 hlt h4 h5
  · exact ⟨_, rfl, rfl, hw⟩
  · exact ⟨_, rfl, rfl, hw⟩
  · refine ⟨loadScene env (w.mapList.get ⟨w.currentLevel + 1, hlt⟩)
      { w with currentLevel := w.currentLevel + 1 }, ?_, rfl, hlt⟩
    simp [List.getElem?_eq_getElem hlt]
  · refine ⟨loadScene env (w.mapList.get ⟨w.currentLevel, hw⟩) w, ?_, rfl, hw⟩
    simp [List.getElem?_eq_getElem hw]
  · exact ⟨_, rfl, rfl, hw⟩
  · exact ⟨_, rfl, rfl, hw⟩
  · exact ⟨_, rfl, rfl, hw⟩
  · exact ⟨_, rfl, rfl, hw⟩

/-- The trigger loop, whatever the budget: a result keeps the level list and
has a valid index. -/
theorem triggerLoop_levelOk (env : Env) :
    ∀ (budget i : Nat) (w w' : World), LevelOk w →
      triggerLoop env budget i w = some w' → KeepsLevels w w' := by
  intro budget
  induction budget with
  | zero => intro i w w' _ h; simp [triggerLoop] at h
  | succ b ih =>
    intro i w w' hw h
    unfold triggerLoop at h
    split at h
    · rename_i hi
      obtain ⟨w1, hb, hm, hk⟩ := triggerBody_levelOk env (w.scene.triggers.get ⟨i, hi⟩) w hw
      rw [hb] at h
      simp only [Option.some_bind] at h
      obtain ⟨hm2, hk2⟩ := ih (i + 1) w1 w' hk h
      exact ⟨hm2.trans hm, hk2⟩
    · simp only [Option.some.injEq] at h
      subst h
      exact ⟨rfl, hw⟩

theorem triggersWithin_loadScene (env : Env) (B : Nat)
    (hload : ∀ path, (env.getScene path).triggers.length ≤ B) (path : String) (w : World) :
    TriggersWithin B (loadScene env path w) := hload path

theorem triggers_reviveStep (w : World) : (reviveStep w).scene.triggers = w.scene.triggers := by
  unfold reviveStep; simp only []; split <;> rfl

theorem triggers_collideY (env : Env) (pos : Vector3f) (w : World) :
    (collideY env pos w).scene.triggers = w.scene.triggers := by
  unfold collideY; simp only []
  split_ifs <;> rfl

theorem triggers_collideX (env : Env) (pos : Vector3f) (w : World) :
    (collideX env pos w).scene.triggers = w.scene.triggers := by
  unfold collideX; simp only []
  split_ifs <;> rfl

theorem triggers_collideZ (env : Env) (pos : Vector3f) (w : World) :
    (collideZ env pos w).scene.triggers = w.scene.triggers := by
  unfold collideZ; simp only []
  split_ifs <;> rfl

theorem triggers_collisionStage (env : Env) (w : World) :
    (collisionStage env w).scene.triggers = w.scene.triggers := by
  unfold collisionStage
  rw [triggers_collideZ, triggers_collideX, triggers_collideY]

theorem triggersWithin_beforeAcids (env : Env) (B : Nat)
    (hload : ∀ path, (env.getScene path).triggers.length ≤ B) (w : World)
    (hw : TriggersWithin B w) :
    TriggersWithin B (acidStage env
      (collisionStage env (inputStep env (reviveStep (reloadOnKey env w))))) := by
  have h1 : TriggersWithin B (reloadOnKey env w) := by
    unfold reloadOnKey; split
    · exact hload _
    · exact hw
  have h2 : ∀ v : World, (acidStage env
      (collisionStage env (inputStep env (reviveStep v)))).scene.triggers = v.scene.triggers := by
    intro v
    have ha : ∀ u : World, (acidStage env u).scene.triggers = u.scene.triggers := fun _ => rfl
    have hi : ∀ u : World, (inputStep env u).scene.triggers = u.scene.triggers := fun _ => rfl
    rw [ha, triggers_collisionStage, hi, triggers_reviveStep]
  unfold TriggersWithin at *
  rw [h2]; exact h1

theorem triggerBody_triggersWithin (env : Env) (B : Nat)
    (hload : ∀ path, (env.getScene path).triggers.length ≤ B) (t : Trigger) (w w' : World)
    (hw : TriggersWithin B w) (h : triggerBody env t w = some w') : TriggersWithin B w' := by
  unfold triggerBody at h; simp only [] at h
  split_ifs at h
  all_goals first
    | (simp only [Option.some.injEq] at h; subst h; exact hw)
    | (simp only [Option.map_eq_some'] at h
       obtain ⟨path, _, rfl⟩ := h
       exact hload _)
    | (simp only [Option.some.injEq] at h; subst h; exact hload _)

/-- With a bound B on the triggers of every scene, a budget that covers the
indices up to B lets the trigger loop return. -/
theorem triggerLoop_returns (env : Env) (B : Nat)
    (hload : ∀ path, (env.getScene path).triggers.length ≤ B) :
    ∀ (budget i : Nat) (w : World), 1 ≤ budget → B + 1 ≤ i + budget → LevelOk w →
      TriggersWithin B w → ∃ w', triggerLoop env budget i w = some w' := by
  intro budget
  induction budget with
  | zero => intro i w h; omega
  | succ b ih =>
    intro i w _ hB hw hT
    unfold triggerLoop
    split
    · rename_i hi
      obtain ⟨w1, hb, _, hk⟩ := triggerBody_levelOk env (w.scene.triggers.get ⟨i, hi⟩) w hw
      have hT1 := triggerBody_triggersWithin env B hload _ w w1 hT hb
      rw [hb]
      simp only [Option.some_bind]
      unfold TriggersWithin at hT
      exact ih (i + 1) w1 (by omega) (by omega) hk hT1
    · exact ⟨w, rfl⟩

/-- End of level, from a valid index: the step returns, keeps the level list
and leaves a valid index. -/
theorem endOfLevel_levelOk (env : Env) (w : World) (hw : LevelOk w) :
    ∃ w', endOfLevel env w = some w' ∧ KeepsLevels w w' := by
  unfold endOfLevel; simp only []
  split_ifs with hd hlt
  · refine ⟨loadScene env (w.mapList.get ⟨w.currentLevel + 1, hlt⟩)
      { w with currentLevel := w.currentLevel + 1 }, ?_, rfl, hlt⟩
    simp [List.getElem?_eq_getElem hlt]
  · refine ⟨loadScene env (w.mapList.get ⟨w.currentLevel, hw⟩) w, ?_, rfl, hw⟩
    simp [List.getElem?_eq_getElem hw]
  · exact ⟨_, rfl, rfl, hw⟩

theorem afterTriggers_levelOk (env : Env) (w : World) (hw : LevelOk w) :
    ∃ w', afterTriggers env w = some w' ∧ KeepsLevels w w' := by
  unfold afterTriggers
  have hs : SameLevel w (cameraSync env (integrate (teleportStep env w))) :=
    ((sameLevel_teleportStep env w).trans (sameLevel_integrate _)).trans
      (sameLevel_cameraSync env _)
  obtain ⟨w', h, hm, hk⟩ := endOfLevel_levelOk env _ (hs.levelOk hw)
  exact ⟨w', h, hm.trans hs.1, hk⟩

/-- A result of the trigger loop does not depend on the budget: more budget
gives the same result. -/
theorem triggerLoop_more_budget (env : Env) :
    ∀ (budget extra i : Nat) (w w' : World),
      triggerLoop env budget i w = some w' → triggerLoop env (budget + extra) i w = some w' := by
  intro budget
  induction budget with
  | zero => intro extra i w w' h; simp [triggerLoop] at h
  | succ b ih =>
    intro extra i w w' h
    have hb : b + 1 + extra = (b + extra) + 1 := by omega
    rw [hb]
    unfold triggerLoop at h ⊢
    split
    · rename_i hi
      rw [dif_pos hi] at h
      cases hbody : triggerBody env (w.scene.triggers.get ⟨i, hi⟩) w with
      | none => rw [hbody] at h; simp at h
      | some w1 =>
        rw [hbody] at h
        simp only [Option.some_bind] at h ⊢
        exact ih extra (i + 1) w1 w' h
    · rename_i hi
      rw [dif_neg hi] at h
      exact h

/-- C1. Level-index validity is an invariant of World::update: from a valid
level index (so from a non-empty level list), for every scene, whichever
triggers are touched and whether or not the end marker is reached, every
result of World::update has the level list it started with and a valid level
index; and World::update does return, within B + 1 tests of the condition of
the trigger loop when no scene has more than B triggers. -/
theorem update_keeps_level_index_valid (env : Env) (w : World)
    (hidx : w.currentLevel < w.mapList.length) :
    (∀ budget w', update env budget w = some w' →
      w'.mapList = w.mapList ∧ w'.currentLevel < w'.mapList.length) ∧
    (∀ B, (∀ path, (env.getScene path).triggers.length ≤ B) → w.scene.triggers.length ≤ B →
      ∃ w', update env (B + 1) w = some w') := by
  have hs := sameLevel_beforeAcids env w
  have hk0 : LevelOk (collisionStage env (inputStep env (reviveStep (reloadOnKey env w)))) :=
    hs.levelOk hidx
  have hka : LevelOk (acidStage env
      (collisionStage env (inputStep env (reviveStep (reloadOnKey env w))))) := hk0
  constructor
  · intro budget w' h
    unfold update fromAcids triggerStage at h
    rw [Option.bind_eq_some] at h
    obtain ⟨w1, h1, h2⟩ := h
    obtain ⟨hm1, hk1⟩ := triggerLoop_levelOk env _ _ _ _ hka h1
    obtain ⟨w2, h2', hm2, hk2⟩ := afterTriggers_levelOk env w1 hk1
    rw [h2'] at h2
    simp only [Option.some.injEq] at h2
    subst h2
    refine ⟨?_, hk2⟩
    rw [hm2, hm1]
    exact hs.1
  · intro B hload hscene
    obtain ⟨w1, h1⟩ := triggerLoop_returns env B hload (B + 1) 0 _ (by omega) (by omega) hka
      (triggersWithin_beforeAcids env B hload w hscene)
    obtain ⟨_, hk1⟩ := triggerLoop_levelOk env _ _ _ _ hka h1
    obtain ⟨w2, h2, _⟩ := afterTriggers_levelOk env w1 hk1
    refine ⟨w2, ?_⟩
    unfold update fromAcids triggerStage
    rw [h1]; exact h2

/-- Witness of C1: the demo world stands on a win trigger at level 0 of 3;
its step returns with a budget of 2. -/
theorem update_keeps_level_index_valid_witness :
    demoWorld.currentLevel < demoWorld.mapList.length ∧
    (update demoEnv 2 demoWorld).isSome = true ∧
    ((∀ budget w', update demoEnv budget demoWorld = some w' →
      w'.mapList = demoWorld.mapList ∧ w'.currentLevel < w'.mapList.length) ∧
    (∀ B, (∀ path, (demoEnv.getScene path).triggers.length ≤ B) →
      demoWorld.scene.triggers.length ≤ B →
      ∃ w', update demoEnv (B + 1) demoWorld = some w')) :=
  ⟨by decide, by decide,
    update_keeps_level_index_valid demoEnv demoWorld (by decide)⟩

/-! ## The win trigger and the end of the level -/

/-- C2. Win clamping: for a level list of length n at least 1 and a valid
index i, handling one overlapped trigger of kind win returns; when i = n - 1
the index stays n - 1 and the level at n - 1 is loaded, otherwise the index
becomes i + 1 and the level at i + 1 is loaded (the current scene path is that
level path and the scene is the one loaded from it). -/
theorem win_trigger_clamps (env : Env) (t : Trigger) (w : World)
    (hwin : t.type = "win")
    (hov : env.collidesWith ⟨w.scene.player.position, w.scene.player.scale⟩
      ⟨t.position, t.scale⟩ = true)
    (hidx : w.currentLevel < w.mapList.length) :
    ∃ w' path, triggerBody env t w = some w' ∧
      w'.mapList = w.mapList ∧
      w'.currentLevel =
        (if w.currentLevel = w.mapList.length - 1 then w.mapList.length - 1
         else w.currentLevel + 1) ∧
      w.mapList.get? w'.currentLevel = some path ∧
      w'.currentScenePath = path ∧
      w'.scene = env.getScene path := by
  have h1 : t.type ≠ "radiation" := by rw [hwin]; decide
  have h2 : t.type ≠ "death" := by rw [hwin]; decide
  unfold triggerBody
  simp only [hov, h1, h2, hwin, if_true, if_false]
  by_cases hlt : w.currentLevel + 1 < w.mapList.length
  · have hne : ¬ w.currentLevel = w.mapList.length - 1 := by omega
    refine ⟨loadScene env (w.mapList.get ⟨w.currentLevel + 1, hlt⟩)
      { w with currentLevel := w.currentLevel + 1 }, w.mapList.get ⟨w.currentLevel + 1, hlt⟩,
      ?_, rfl, ?_, ?_, rfl, rfl⟩
    · simp [hlt, List.getElem?_eq_getElem hlt]
    · simp only [loadScene, if_neg hne]
    · simp [loadScene, List.getElem?_eq_getElem hlt]
  · have he : w.currentLevel = w.mapList.length - 1 := by omega
    refine ⟨loadScene env (w.mapList.get ⟨w.currentLevel, hidx⟩) w,
      w.mapList.get ⟨w.currentLevel, hidx⟩, ?_, rfl, ?_, ?_, rfl, rfl⟩
    · simp [hlt, List.getElem?_eq_getElem hidx]
    · simp only [loadScene, if_pos he]; exact he
    · simp [loadScene, List.getElem?_eq_getElem hidx]

/-- Witness of C2: the win trigger of the demo world, at level 0 of 3. -/
theorem win_trigger_clamps_witness :
    (triggerAtOrigin "win" "").type = "win" ∧
    demoEnv.collidesWith ⟨demoWorld.scene.player.position, demoWorld.scene.player.scale⟩
      ⟨(triggerAtOrigin "win" "").position, (triggerAtOrigin "win" "").scale⟩ = true ∧
    demoWorld.currentLevel < demoWorld.mapList.length ∧
    ∃ w' path, triggerBody demoEnv (triggerAtOrigin "win" "") demoWorld = some w' ∧
      w'.mapList = demoWorld.mapList ∧
      w'.currentLevel =
        (if demoWorld.currentLevel = demoWorld.mapList.length - 1
         then demoWorld.mapList.length - 1 else demoWorld.currentLevel + 1) ∧
      demoWorld.mapList.get? w'.currentLevel = some path ∧
      w'.currentScenePath = path ∧
      w'.scene = demoEnv.getScene path :=
  ⟨by decide, by decide, by decide,
    win_trigger_clamps demoEnv (triggerAtOrigin "win" "") demoWorld
      (by decide) (by decide) (by decide)⟩

/-- C3. End-of-level equivalence: for every level list, valid index and
player (so every velocity), when the player is closer than 1 to the end
marker the end-of-level step returns the very state that the win branch of
the trigger loop returns from the same state: same level index, same level
path loaded, same scene. -/
theorem endOfLevel_same_as_win (env : Env) (t : Trigger) (w : World)
    (hwin : t.type = "win")
    (hov : env.collidesWith ⟨w.scene.player.position, w.scene.player.scale⟩
      ⟨t.position, t.scale⟩ = true)
    (hidx : w.currentLevel < w.mapList.length)
    (hnear : env.length (w.scene.endMarker.position.sub w.scene.player.position) < 1) :
    ∃ w', endOfLevel env w = some w' ∧ triggerBody env t w = some w' := by
  have h1 : t.type ≠ "radiation" := by rw [hwin]; decide
  have h2 : t.type ≠ "death" := by rw [hwin]; decide
  unfold endOfLevel triggerBody
  simp only [hov, h1, h2, hwin, hnear, if_true, if_false]
  by_cases hlt : w.currentLevel + 1 < w.mapList.length
  · refine ⟨loadScene env (w.mapList.get ⟨w.currentLevel + 1, hlt⟩)
      { w with currentLevel := w.currentLevel + 1 }, ?_, ?_⟩
    · simp [hlt, List.getElem?_eq_getElem hlt]
    · simp [hlt, List.getElem?_eq_getElem hlt]
  · refine ⟨loadScene env (w.mapList.get ⟨w.currentLevel, hidx⟩) w, ?_, ?_⟩
    · simp [hlt, List.getElem?_eq_getElem hidx]
    · simp [hlt, List.getElem?_eq_getElem hidx]

/-- Witness of C3: the demo world with the end marker on the player. -/
theorem endOfLevel_same_as_win_witness :
    (triggerAtOrigin "win" "").type = "win" ∧
    demoEnv.collidesWith ⟨nearEndWorld.scene.player.position, nearEndWorld.scene.player.scale⟩
      ⟨(triggerAtOrigin "win" "").position, (triggerAtOrigin "win" "").scale⟩ = true ∧
    nearEndWorld.currentLevel < nearEndWorld.mapList.length ∧
    demoEnv.length
      (nearEndWorld.scene.endMarker.position.sub nearEndWorld.scene.player.position) < 1 ∧
    ∃ w', endOfLevel demoEnv nearEndWorld = some w' ∧
      triggerBody demoEnv (triggerAtOrigin "win" "") nearEndWorld = some w' :=
  ⟨by decide, by decide, by decide, by decide,
    endOfLevel_same_as_win demoEnv (triggerAtOrigin "win" "") nearEndWorld
      (by decide) (by decide) (by decide) (by decide)⟩

/-! ## World::shootPortal -/

/-- While every hit of the walls visited is farther than t, the loop keeps
intersection above t. -/
theorem closestLoop_above (env : Env) (bullet : Ray) (t : Scalar) :
    ∀ (l : List PhysicsEntity) (c : Option PhysicsEntity) (m : Scalar),
      (∀ e ∈ l, ∀ a b, env.rayCollides bullet e = some (a, b) → t < a) → t < m →
      t < (closestLoop env bullet l (c, m)).2 := by
  intro l
  induction l with
  | nil => intro c m _ hm; exact hm
  | cons e rest ih =>
    intro c m hl hm
    have hrest : ∀ e' ∈ rest, ∀ a b, env.rayCollides bullet e' = some (a, b) → t < a :=
      fun e' he' => hl e' (List.mem_cons_of_mem _ he')
    unfold closestLoop
    split
    · rename_i a b hab
      split
      · exact ih _ _ hrest (hl e (List.mem_cons_self _ _) a b hab)
      · exact ih _ _ hrest hm
    · exact ih _ _ hrest hm

/-- Once a wall with ray parameter t is held, walls whose hits are not nearer
than t do not replace it. -/
theorem closestLoop_keeps (env : Env) (bullet : Ray) (wall : PhysicsEntity) (t : Scalar) :
    ∀ (l : List PhysicsEntity),
      (∀ e ∈ l, ∀ a b, env.rayCollides bullet e = some (a, b) → t ≤ a) →
      closestLoop env bullet l (some wall, t) = (some wall, t) := by
  intro l
  induction l with
  | nil => intro _; rfl
  | cons e rest ih =>
    intro hl
    have hrest : ∀ e' ∈ rest, ∀ a b, env.rayCollides bullet e' = some (a, b) → t ≤ a :=
      fun e' he' => hl e' (List.mem_cons_of_mem _ he')
    unfold closestLoop
    split
    · rename_i a b hab
      have hle := hl e (List.mem_cons_self _ _) a b hab
      rw [if_neg (not_lt.mpr hle)]
      exact ih hrest
    · exact ih hrest

/-- One iteration of the loop of World::shootPortal. -/
theorem closestLoop_cons (env : Env) (bullet : Ray) (e : PhysicsEntity)
    (rest : List PhysicsEntity) (c : Option PhysicsEntity) (m : Scalar) :
    closestLoop env bullet (e :: rest) (c, m) =
      closestLoop env bullet rest
        (match env.rayCollides bullet e with
         | some (a, _) => if a < m then (some e, a) else (c, m)
         | none => (c, m)) := by
  rw [closestLoop]
  split
  · split <;> rfl
  · rfl

/-- The loop over a list is the loop over its front, then over its back. -/
theorem closestLoop_append (env : Env) (bullet : Ray) :
    ∀ (l1 l2 : List PhysicsEntity) (st : Option PhysicsEntity × Scalar),
      closestLoop env bullet (l1 ++ l2) st =
        closestLoop env bullet l2 (closestLoop env bullet l1 st) := by
  intro l1
  induction l1 with
  | nil => intro l2 st; rfl
  | cons e rest ih =>
    intro l2 st
    obtain ⟨c, m⟩ := st
    rw [List.cons_append, closestLoop_cons, closestLoop_cons]
    exact ih _ _

/-- When no wall is hit the loop leaves its state as it is. -/
theorem closestLoop_no_hit (env : Env) (bullet : Ray) :
    ∀ (l : List PhysicsEntity) (st : Option PhysicsEntity × Scalar),
      (∀ e ∈ l, env.rayCollides bullet e = none) → closestLoop env bullet l st = st := by
  intro l
  induction l with
  | nil => intro st _; rfl
  | cons e rest ih =>
    intro st hl
    obtain ⟨c, m⟩ := st
    unfold closestLoop
    rw [hl e (List.mem_cons_self _ _)]
    exact ih _ (fun e' he' => hl e' (List.mem_cons_of_mem _ he'))

/-- The first wall with the smallest ray parameter, below INT_MAX, is the
wall the loop of World::shootPortal ends with. -/
theorem closestHit_first_nearest (env : Env) (s : Scene) (pre post : List PhysicsEntity)
    (wall : PhysicsEntity) (tNear tFar : Scalar)
    (hwalls : s.walls = pre ++ wall :: post)
    (hhit : env.rayCollides (bulletOf env s) wall = some (tNear, tFar))
    (hmax : tNear < INT_MAX)
    (hpre : ∀ e ∈ pre, ∀ a b, env.rayCollides (bulletOf env s) e = some (a, b) → tNear < a)
    (hpost : ∀ e ∈ post, ∀ a b, env.rayCollides (bulletOf env s) e = some (a, b) → tNear ≤ a) :
    closestHit env s = (some wall, tNear) := by
  unfold closestHit
  rw [hwalls, closestLoop_append]
  have h1 := closestLoop_above env (bulletOf env s) tNear pre none INT_MAX hpre hmax
  generalize closestLoop env (bulletOf env s) pre (none, INT_MAX) = st at h1
  obtain ⟨c, m⟩ := st
  unfold closestLoop
  rw [hhit]
  simp only [] at h1
  simp only [if_pos h1]
  exact closestLoop_keeps env _ wall tNear post hpost

/-- C4, counterexample. The camera looks at a wall that is not portalable
(ray parameter 1) with a portalable wall behind it (ray parameter 4). A
portalable wall is hit and it is the only portalable wall, yet shootPortal
does not place the blue portal on it at the impact point (0, 0, -4): the
nearer wall is the one selected and the blue portal, open at (3, 0, 0), is
closed where it was. -/
theorem shootPortal_nearest_portalable_counterexample :
    (wallAt (-5) true ∈ occludedWorld.scene.walls ∧
      (wallAt (-5) true).material.portalable = true ∧
      demoEnv.rayCollides (bulletOf demoEnv occludedWorld.scene) (wallAt (-5) true)
        = some (4, 6)) ∧
    (∀ wall ∈ occludedWorld.scene.walls, wall.material.portalable = true →
      wall = wallAt (-5) true) ∧
    closestHit demoEnv occludedWorld.scene = (some (wallAt (-2) false), 1) ∧
    occludedWorld.scene.bluePortal.isOpen = true ∧
    (shootPortal demoEnv 1 occludedWorld).scene.bluePortal =
      { occludedWorld.scene.bluePortal with isOpen := false } ∧
    (shootPortal demoEnv 1 occludedWorld).scene.bluePortal.position = ⟨3, 0, 0⟩ ∧
    (shootPortal demoEnv 1 occludedWorld).scene.bluePortal ≠
      paintBlue demoEnv (demoEnv.placeOnWall (freshPortal demoEnv)
        occludedWorld.scene.camera.position
        ⟨(wallAt (-5) true).position, (wallAt (-5) true).scale⟩
        (occludedWorld.scene.camera.position.add
          ((demoEnv.toDirection occludedWorld.scene.camera.rotation).scale 4))) := by
  refine ⟨by decide, by decide, by decide, by decide, by decide, by decide, by decide⟩

/-- C4, amended. Every wall hit by the ray is a candidate, portalable or
not. When the wall with the smallest ray parameter tNear among all walls hit
(the first such wall in the list, with tNear below INT_MAX) is portalable,
shootPortal puts the portal of the colour of the button on that wall, built
by placeOnWall at the impact point camera position + direction * tNear. -/
theorem shootPortal_places_on_closest_hit (env : Env) (button : Int) (w : World)
    (pre post : List PhysicsEntity) (wall : PhysicsEntity) (tNear tFar : Scalar)
    (hwalls : w.scene.walls = pre ++ wall :: post)
    (hhit : env.rayCollides (bulletOf env w.scene) wall = some (tNear, tFar))
    (hmax : tNear < INT_MAX)
    (hpre : ∀ e ∈ pre, ∀ a b,
      env.rayCollides (bulletOf env w.scene) e = some (a, b) → tNear < a)
    (hpost : ∀ e ∈ post, ∀ a b,
      env.rayCollides (bulletOf env w.scene) e = some (a, b) → tNear ≤ a)
    (hport : wall.material.portalable = true) :
    shootPortal env button w =
      (if button = 1 then
        { w with scene := { w.scene with bluePortal :=
            (paintBlue env (env.placeOnWall (freshPortal env) w.scene.camera.position
              ⟨wall.position, wall.scale⟩
              (w.scene.camera.position.add
                ((env.toDirection w.scene.camera.rotation).scale tNear)))) } }
      else
        { w with scene := { w.scene with orangePortal :=
            (paintOrange env (env.placeOnWall (freshPortal env) w.scene.camera.position
              ⟨wall.position, wall.scale⟩
              (w.scene.camera.position.add
                ((env.toDirection w.scene.camera.rotation).scale tNear)))) } }) := by
  have hc := closestHit_first_nearest env w.scene pre post wall tNear tFar hwalls hhit hmax
    hpre hpost
  unfold shootPortal
  rw [hc]
  simp only [hport, if_true]
  split <;> rfl

/-- Witness of C4 amended: the camera looks at a portalable wall, ray parameter 3. -/
theorem shootPortal_places_on_closest_hit_witness :
    facingWallWorld.scene.walls = [] ++ wallAt (-4) true :: [wallAt (-7) false] ∧
    demoEnv.rayCollides (bulletOf demoEnv facingWallWorld.scene) (wallAt (-4) true)
      = some (3, 5) ∧
    (3 : Scalar) < INT_MAX ∧
    (wallAt (-4) true).material.portalable = true ∧
    shootPortal demoEnv 1 facingWallWorld =
      (if (1 : Int) = 1 then
        { facingWallWorld with scene := { facingWallWorld.scene with bluePortal :=
            (paintBlue demoEnv (demoEnv.placeOnWall (freshPortal demoEnv)
              facingWallWorld.scene.camera.position
              ⟨(wallAt (-4) true).position, (wallAt (-4) true).scale⟩
              (facingWallWorld.scene.camera.position.add
                ((demoEnv.toDirection facingWallWorld.scene.camera.rotation).scale 3)))) } }
      else
        { facingWallWorld with scene := { facingWallWorld.scene with orangePortal :=
            (paintOrange demoEnv (demoEnv.placeOnWall (freshPortal demoEnv)
              facingWallWorld.scene.camera.position
              ⟨(wallAt (-4) true).position, (wallAt (-4) true).scale⟩
              (facingWallWorld.scene.camera.position.add
                ((demoEnv.toDirection facingWallWorld.scene.camera.rotation).scale 3)))) } }) :=
  ⟨by decide, by decide, by decide, by decide,
    shootPortal_places_on_closest_hit demoEnv 1 facingWallWorld [] [wallAt (-7) false]
      (wallAt (-4) true) 3 5 (by decide) (by decide) (by decide)
      (by intro e he; cases he)
      (by
        intro e he a b h
        have he' : e = wallAt (-7) false := by simpa using he
        subst he'
        have h5 : demoEnv.rayCollides (bulletOf demoEnv facingWallWorld.scene)
            (wallAt (-7) false) = some (6, 8) := by decide
        rw [h5] at h
        simp only [Option.some.injEq, Prod.mk.injEq] at h
        obtain ⟨rfl, rfl⟩ := h
        decide)
      (by decide)⟩

/-- C5. Portal retraction: when the ray hits no wall, or the wall selected
by the loop is not portalable, shootPortal changes only the open flag of the
portal of the targeted colour (blue iff button = 1, else orange), which
becomes false: position, rotation and textures of that portal are as before. -/
theorem shootPortal_retracts (env : Env) (button : Int) (w : World)
    (h : (∀ wall ∈ w.scene.walls, env.rayCollides (bulletOf env w.scene) wall = none) ∨
      (∃ wall t, closestHit env w.scene = (some wall, t) ∧
        wall.material.portalable = false)) :
    shootPortal env button w =
      (if button = 1 then
        { w with scene := { w.scene with
            bluePortal := { w.scene.bluePortal with isOpen := false } } }
      else
        { w with scene := { w.scene with
            orangePortal := { w.scene.orangePortal with isOpen := false } } }) := by
  rcases h with h | ⟨wall, t, hc, hp⟩
  · have hc : closestHit env w.scene = (none, INT_MAX) :=
      closestLoop_no_hit env _ _ _ h
    unfold shootPortal
    rw [hc]
    rfl
  · unfold shootPortal
    rw [hc]
    simp only [hp]
    rfl

/-- Witness of C5: the selected wall of the occluded world is not portalable. -/
theorem shootPortal_retracts_witness :
    ((∀ wall ∈ occludedWorld.scene.walls,
        demoEnv.rayCollides (bulletOf demoEnv occludedWorld.scene) wall = none) ∨
      (∃ wall t, closestHit demoEnv occludedWorld.scene = (some wall, t) ∧
        wall.material.portalable = false)) ∧
    shootPortal demoEnv 2 occludedWorld =
      (if (2 : Int) = 1 then
        { occludedWorld with scene := { occludedWorld.scene with
            bluePortal := { occludedWorld.scene.bluePortal with isOpen := false } } }
      else
        { occludedWorld with scene := { occludedWorld.scene with
            orangePortal := { occludedWorld.scene.orangePortal with isOpen := false } } }) :=
  have h : (∀ wall ∈ occludedWorld.scene.walls,
        demoEnv.rayCollides (bulletOf demoEnv occludedWorld.scene) wall = none) ∨
      (∃ wall t, closestHit demoEnv occludedWorld.scene = (some wall, t) ∧
        wall.material.portalable = false) :=
    Or.inr ⟨wallAt (-2) false, 1, by decide, by decide⟩
  ⟨h, shootPortal_retracts demoEnv 2 occludedWorld h⟩

/-- C6. Button-to-colour mapping with frame: for every button and world,
shootPortal leaves everything but one portal as it was; the portal that may
change is the blue one exactly when button = 1 and the orange one for every
other button, in the placing case and in the retracting case alike. -/
theorem shootPortal_changes_only_selected_colour (env : Env) (button : Int) (w : World) :
    ∃ portal : Portal,
      shootPortal env button w =
        (if button = 1 then { w with scene := { w.scene with bluePortal := portal } }
         else { w with scene := { w.scene with orangePortal := portal } }) := by
  unfold shootPortal retract
  split
  · split
    · by_cases hb : button = 1
      · simp only [hb, if_true]
        exact ⟨_, rfl⟩
      · simp only [hb, if_false]
        exact ⟨_, rfl⟩
    · by_cases hb : button = 1
      · simp only [hb, if_true]
        exact ⟨_, rfl⟩
      · simp only [hb, if_false]
        exact ⟨_, rfl⟩
  · by_cases hb : button = 1
    · simp only [hb, if_true]
      exact ⟨_, rfl⟩
    · simp only [hb, if_false]
      exact ⟨_, rfl⟩

/-! ## The pass through a portal -/

/-- C7. A single open portal never teleports: when at least one of the two
portals is closed the teleport step leaves the world as it is, whatever
throughPortal answers, so rotation and velocity of the player are unchanged
and the position after integration is position + velocity. -/
theorem teleport_noop_unless_both_open (env : Env) (w : World)
    (h : w.scene.bluePortal.isOpen = false ∨ w.scene.orangePortal.isOpen = false) :
    teleportStep env w = w ∧
    (integrate (teleportStep env w)).scene.player.rotation = w.scene.player.rotation ∧
    (integrate (teleportStep env w)).scene.player.velocity = w.scene.player.velocity ∧
    (integrate (teleportStep env w)).scene.player.position =
      w.scene.player.position.add w.scene.player.velocity := by
  have h0 : teleportStep env w = w := by
    unfold teleportStep
    rcases h with h | h <;> simp [h]
  rw [h0]
  exact ⟨rfl, rfl, rfl, rfl⟩

/-- Witness of C7: only the blue portal is open and it reports a crossing. -/
theorem teleport_noop_unless_both_open_witness :
    demoEnv.throughPortal onePortalWorld.scene.bluePortal
      ⟨onePortalWorld.scene.player.position.add onePortalWorld.scene.player.velocity,
        onePortalWorld.scene.player.scale⟩ = true ∧
    (onePortalWorld.scene.bluePortal.isOpen = false ∨
      onePortalWorld.scene.orangePortal.isOpen = false) ∧
    (teleportStep demoEnv onePortalWorld = onePortalWorld ∧
      (integrate (teleportStep demoEnv onePortalWorld)).scene.player.rotation =
        onePortalWorld.scene.player.rotation ∧
      (integrate (teleportStep demoEnv onePortalWorld)).scene.player.velocity =
        onePortalWorld.scene.player.velocity ∧
      (integrate (teleportStep demoEnv onePortalWorld)).scene.player.position =
        onePortalWorld.scene.player.position.add onePortalWorld.scene.player.velocity) :=
  ⟨by decide, Or.inr (by decide),
    teleport_noop_unless_both_open demoEnv onePortalWorld (Or.inr (by decide))⟩

/-- The camera step does not touch the player. -/
theorem player_cameraSync (env : Env) (w : World) :
    (cameraSync env w).scene.player = w.scene.player := rfl

/-- Away from the end marker the end-of-level check leaves the world as it is. -/
theorem endOfLevel_far (env : Env) (w : World)
    (h : ¬ env.length (w.scene.endMarker.position.sub w.scene.player.position) < 1) :
    endOfLevel env w = some w := by
  unfold endOfLevel
  simp only [h, if_false]

/-- The player after the teleport step when only the blue portal reports a crossing. -/
theorem teleportStep_blue_only (env : Env) (w : World)
    (hb : w.scene.bluePortal.isOpen = true) (ho : w.scene.orangePortal.isOpen = true)
    (hblue : env.throughPortal w.scene.bluePortal
      ⟨w.scene.player.position.add w.scene.player.velocity, w.scene.player.scale⟩ = true)
    (horange : env.throughPortal w.scene.orangePortal
      ⟨w.scene.player.position.add w.scene.player.velocity, w.scene.player.scale⟩ = false) :
    teleportStep env w = w.setPlayer
      { w.scene.player with
        position := w.scene.orangePortal.position
        rotation := { w.scene.player.rotation with
          y := w.scene.player.rotation.y +
            (w.scene.orangePortal.rotation.y - w.scene.bluePortal.rotation.y + env.rad 180) }
        velocity := (env.getDirection w.scene.orangePortal).scale
          (env.length w.scene.player.velocity) } := by
  unfold teleportStep
  simp [hb, ho, hblue, horange]

/-- C8, counterexample. Both portals are open and the blue one reports that
the provisional box of the player goes through it; at the end of the tick the
player is at (8, 0, 0), not at the position (10, 0, 0) of the orange portal:
the new velocity has been added to the position. -/
theorem teleport_position_counterexample :
    teleWorld.scene.bluePortal.isOpen = true ∧
    teleWorld.scene.orangePortal.isOpen = true ∧
    demoEnv.throughPortal teleWorld.scene.bluePortal
      ⟨teleWorld.scene.player.position.add teleWorld.scene.player.velocity,
        teleWorld.scene.player.scale⟩ = true ∧
    (update demoEnv 1 teleWorld).map
        (fun w' => (w'.scene.player.position, w'.scene.orangePortal.position))
      = some (⟨8, 0, 0⟩, ⟨10, 0, 0⟩) := by
  refine ⟨by decide, by decide, by decide, by decide⟩

/-- C8, amended. With both portals open, when the blue portal reports that
the provisional box goes through it and the orange portal does not, the
teleport step puts the player at the position of the orange portal with
velocity getDirection(orange) * length(velocity); the integration then adds
this velocity, so that the position is orange.position + that velocity when
the end-of-level check begins, and at the end of the tick when the end marker
is not reached. -/
theorem teleport_moves_to_orange_then_integrates (env : Env) (w : World)
    (hb : w.scene.bluePortal.isOpen = true) (ho : w.scene.orangePortal.isOpen = true)
    (hblue : env.throughPortal w.scene.bluePortal
      ⟨w.scene.player.position.add w.scene.player.velocity, w.scene.player.scale⟩ = true)
    (horange : env.throughPortal w.scene.orangePortal
      ⟨w.scene.player.position.add w.scene.player.velocity, w.scene.player.scale⟩ = false) :
    (teleportStep env w).scene.player.position = w.scene.orangePortal.position ∧
    (teleportStep env w).scene.player.velocity =
      (env.getDirection w.scene.orangePortal).scale (env.length w.scene.player.velocity) ∧
    (beforeEndCheck env w).scene.player.position =
      w.scene.orangePortal.position.add
        ((env.getDirection w.scene.orangePortal).scale (env.length w.scene.player.velocity)) ∧
    (¬ env.length ((beforeEndCheck env w).scene.endMarker.position.sub
          (beforeEndCheck env w).scene.player.position) < 1 →
      afterTriggers env w = some (beforeEndCheck env w)) := by
  have ht := teleportStep_blue_only env w hb ho hblue horange
  refine ⟨?_, ?_, ?_, ?_⟩
  · rw [ht]; rfl
  · rw [ht]; rfl
  · unfold beforeEndCheck
    rw [player_cameraSync, ht]; rfl
  · intro hfar
    unfold afterTriggers
    exact endOfLevel_far env _ hfar

/-- Witness of C8 amended: the world teleWorld. -/
theorem teleport_moves_to_orange_then_integrates_witness :
    teleWorld.scene.bluePortal.isOpen = true ∧
    teleWorld.scene.orangePortal.isOpen = true ∧
    demoEnv.throughPortal teleWorld.scene.bluePortal
      ⟨teleWorld.scene.player.position.add teleWorld.scene.player.velocity,
        teleWorld.scene.player.scale⟩ = true ∧
    demoEnv.throughPortal teleWorld.scene.orangePortal
      ⟨teleWorld.scene.player.position.add teleWorld.scene.player.velocity,
        teleWorld.scene.player.scale⟩ = false ∧
    (teleportStep demoEnv teleWorld).scene.player.position
      = teleWorld.scene.orangePortal.position ∧
    (teleportStep demoEnv teleWorld).scene.player.velocity =
      (demoEnv.getDirection teleWorld.scene.orangePortal).scale
        (demoEnv.length teleWorld.scene.player.velocity) ∧
    (beforeEndCheck demoEnv teleWorld).scene.player.position =
      teleWorld.scene.orangePortal.position.add
        ((demoEnv.getDirection teleWorld.scene.orangePortal).scale
          (demoEnv.length teleWorld.scene.player.velocity)) ∧
    (¬ demoEnv.length ((beforeEndCheck demoEnv teleWorld).scene.endMarker.position.sub
          (beforeEndCheck demoEnv teleWorld).scene.player.position) < 1 →
      afterTriggers demoEnv teleWorld = some (beforeEndCheck demoEnv teleWorld)) :=
  ⟨by decide, by decide, by decide, by decide,
    teleport_moves_to_orange_then_integrates demoEnv teleWorld
      (by decide) (by decide) (by decide) (by decide)⟩

/-- C9, counterexample. First, both portals are open at the same place with
the same rotation, so both report a crossing of the provisional box: the Y
rotation of the player grows by 180 twice, 360 in all, which is not
orange.rotation.y - blue.rotation.y + 180 = 180 modulo 360. Second, in the
world teleEndWorld the pass through the blue portal brings the player onto
the end marker: the next level is loaded and after the tick the Y rotation is
that of the player of the new scene, 0, not 0 + 270 modulo 360. -/
theorem teleport_rotation_counterexample :
    (twinPortalWorld.scene.bluePortal.isOpen = true ∧
      twinPortalWorld.scene.orangePortal.isOpen = true ∧
      demoEnv.throughPortal twinPortalWorld.scene.bluePortal
        ⟨twinPortalWorld.scene.player.position.add twinPortalWorld.scene.player.velocity,
          twinPortalWorld.scene.player.scale⟩ = true ∧
      twinPortalWorld.scene.player.rotation.y = 0 ∧
      (update demoEnv 1 twinPortalWorld).map (fun w' => w'.scene.player.rotation.y)
        = some 360 ∧
      twinPortalWorld.scene.orangePortal.rotation.y
        - twinPortalWorld.scene.bluePortal.rotation.y + demoEnv.rad 180 = 180 ∧
      ¬ ∃ k : Int, ((360 : Scalar) - 0) - 180 = k * demoEnv.rad 360) ∧
    (teleEndWorld.scene.bluePortal.isOpen = true ∧
      teleEndWorld.scene.orangePortal.isOpen = true ∧
      demoEnv.throughPortal teleEndWorld.scene.bluePortal
        ⟨teleEndWorld.scene.player.position.add teleEndWorld.scene.player.velocity,
          teleEndWorld.scene.player.scale⟩ = true ∧
      teleEndWorld.scene.player.rotation.y = 0 ∧
      (update demoEnv 1 teleEndWorld).map (fun w' => w'.scene.player.rotation.y)
        = some 0 ∧
      teleEndWorld.scene.orangePortal.rotation.y
        - teleEndWorld.scene.bluePortal.rotation.y + demoEnv.rad 180 = 270 ∧
      ¬ ∃ k : Int, ((0 : Scalar) - 0) - 270 = k * demoEnv.rad 360) := by
  refine ⟨⟨by decide, by decide, by decide, by decide, by decide, by decide, ?_⟩,
    ⟨by decide, by decide, by decide, by decide, by decide, by decide, ?_⟩⟩
  · rintro ⟨k, hk⟩
    have hk' : ((360 : Int) - 0) - 180 = k * 360 := hk
    omega
  · rintro ⟨k, hk⟩
    have hk' : ((0 : Int) - 0) - 270 = k * 360 := hk
    omega

/-- C9, amended. With both portals open, when the blue portal reports a
crossing of the provisional box and the orange portal does not, the Y
rotation of the player after the teleport step, and still when the
end-of-level check begins, is its Y rotation before the step plus
orange.rotation.y - blue.rotation.y + rad(180), with no reduction modulo a
full turn; it is the Y rotation at the end of the tick when the end marker is
not reached. -/
theorem teleport_adds_rotation_difference (env : Env) (w : World)
    (hb : w.scene.bluePortal.isOpen = true) (ho : w.scene.orangePortal.isOpen = true)
    (hblue : env.throughPortal w.scene.bluePortal
      ⟨w.scene.player.position.add w.scene.player.velocity, w.scene.player.scale⟩ = true)
    (horange : env.throughPortal w.scene.orangePortal
      ⟨w.scene.player.position.add w.scene.player.velocity, w.scene.player.scale⟩ = false) :
    (teleportStep env w).scene.player.rotation.y =
      w.scene.player.rotation.y +
        (w.scene.orangePortal.rotation.y - w.scene.bluePortal.rotation.y + env.rad 180) ∧
    (beforeEndCheck env w).scene.player.rotation.y =
      w.scene.player.rotation.y +
        (w.scene.orangePortal.rotation.y - w.scene.bluePortal.rotation.y + env.rad 180) ∧
    (¬ env.length ((beforeEndCheck env w).scene.endMarker.position.sub
          (beforeEndCheck env w).scene.player.position) < 1 →
      afterTriggers env w = some (beforeEndCheck env w)) := by
  have ht := teleportStep_blue_only env w hb ho hblue horange
  refine ⟨?_, ?_, ?_⟩
  · rw [ht]; rfl
  · unfold beforeEndCheck
    rw [player_cameraSync, ht]; rfl
  · intro hfar
    unfold afterTriggers
    exact endOfLevel_far env _ hfar

/-- Witness of C9 amended: the world teleWorld, where the rotation grows by 270. -/
theorem teleport_adds_rotation_difference_witness :
    teleWorld.scene.bluePortal.isOpen = true ∧
    teleWorld.scene.orangePortal.isOpen = true ∧
    demoEnv.throughPortal teleWorld.scene.bluePortal
      ⟨teleWorld.scene.player.position.add teleWorld.scene.player.velocity,
        teleWorld.scene.player.scale⟩ = true ∧
    demoEnv.throughPortal teleWorld.scene.orangePortal
      ⟨teleWorld.scene.player.position.add teleWorld.scene.player.velocity,
        teleWorld.scene.player.scale⟩ = false ∧
    (teleportStep demoEnv teleWorld).scene.player.rotation.y =
      teleWorld.scene.player.rotation.y +
        (teleWorld.scene.orangePortal.rotation.y - teleWorld.scene.bluePortal.rotation.y
          + demoEnv.rad 180) ∧
    (beforeEndCheck demoEnv teleWorld).scene.player.rotation.y =
      teleWorld.scene.player.rotation.y +
        (teleWorld.scene.orangePortal.rotation.y - teleWorld.scene.bluePortal.rotation.y
          + demoEnv.rad 180) ∧
    (¬ demoEnv.length ((beforeEndCheck demoEnv teleWorld).scene.endMarker.position.sub
          (beforeEndCheck demoEnv teleWorld).scene.player.position) < 1 →
      afterTriggers demoEnv teleWorld = some (beforeEndCheck demoEnv teleWorld)) :=
  ⟨by decide, by decide, by decide, by decide,
    teleport_adds_rotation_difference demoEnv teleWorld
      (by decide) (by decide) (by decide) (by decide)⟩

/-! ## Hazard volumes -/

/-- The hazard loop changes at most the alive flag; a dead player stays dead
and a player whose box overlaps one of the volumes ends dead. -/
theorem acid_foldl (env : Env) :
    ∀ (vols : List PhysicsEntity) (p : Player),
      ∃ a, vols.foldl (acidBody env) p = { p with alive := a } ∧
        (p.alive = false → a = false) ∧
        ((∃ v ∈ vols, touches env p v.position v.scale) → a = false) := by
  intro vols
  induction vols with
  | nil =>
    intro p
    exact ⟨p.alive, rfl, fun h => h, fun ⟨v, hv, _⟩ => absurd hv (List.not_mem_nil v)⟩
  | cons v rest ih =>
    intro p
    by_cases hc : env.collidesWith ⟨p.position, p.scale⟩ ⟨v.position, v.scale⟩ = true
    · obtain ⟨a, ha, hdead, _⟩ := ih p.kill
      have hstep : acidBody env p v = p.kill := by
        unfold acidBody; simp only [hc, if_true]
      refine ⟨a, ?_, fun _ => hdead rfl, fun _ => hdead rfl⟩
      rw [List.foldl_cons, hstep, ha]; rfl
    · obtain ⟨a, ha, hdead, hhit⟩ := ih p
      have hstep : acidBody env p v = p := by
        unfold acidBody; simp only [hc]; rfl
      refine ⟨a, ?_, hdead, ?_⟩
      · rw [List.foldl_cons, hstep, ha]
      · rintro ⟨v', hv', ht⟩
        rcases List.mem_cons.mp hv' with rfl | hr
        · exact absurd ht hc
        · exact hhit ⟨v', hr, ht⟩

/-- Harm does not move the player. -/
theorem harm_position (p : Player) (amount : Int) : (p.harm amount).position = p.position := by
  unfold Player.harm; simp only []
  split <;> rfl

/-- Harm does not resize the player. -/
theorem harm_scale (p : Player) (amount : Int) : (p.harm amount).scale = p.scale := by
  unfold Player.harm; simp only []
  split <;> rfl

/-- Harm does not revive a dead player. -/
theorem harm_dead (p : Player) (amount : Int) (h : p.alive = false) :
    (p.harm amount).alive = false := by
  unfold Player.harm; simp only []
  split
  · rfl
  · exact h

/-- One trigger that does not load a scene keeps the triggers, the box of the
player and a dead player dead. -/
theorem triggerBody_deadAt (env : Env) (T : List Trigger) (pos sc : Vector3f) (t : Trigger)
    (w : World) (hw : DeadAt T pos sc w)
    (hno : env.collidesWith ⟨pos, sc⟩ ⟨t.position, t.scale⟩ = true →
      t.type ≠ "win" ∧ t.type ≠ "map") :
    ∃ w', triggerBody env t w = some w' ∧ DeadAt T pos sc w' := by
  obtain ⟨hT, hp, hs, ha⟩ := hw
  unfold triggerBody; simp only []
  rw [hp, hs]
  split_ifs with hc h1 h2 h3 hlt h4 h5
  · exact ⟨_, rfl, hT, (harm_position _ _).trans hp, (harm_scale _ _).trans hs,
      harm_dead _ _ ha⟩
  · exact ⟨_, rfl, hT, hp, hs, rfl⟩
  · exact absurd h3 (hno hc).1
  · exact absurd h3 (hno hc).1
  · exact absurd h4 (hno hc).2
  · exact ⟨_, rfl, hT, hp, hs, ha⟩
  · exact ⟨_, rfl, hT, hp, hs, ha⟩
  · exact ⟨_, rfl, hT, hp, hs, ha⟩

/-- The trigger loop over triggers none of which loads a scene returns, with
the player still dead. -/
theorem triggerLoop_deadAt (env : Env) (T : List Trigger) (pos sc : Vector3f)
    (hno : ∀ t ∈ T, env.collidesWith ⟨pos, sc⟩ ⟨t.position, t.scale⟩ = true →
      t.type ≠ "win" ∧ t.type ≠ "map") :
    ∀ (budget i : Nat) (w : World), 1 ≤ budget → T.length + 1 ≤ i + budget →
      DeadAt T pos sc w → ∃ w', triggerLoop env budget i w = some w' ∧ DeadAt T pos sc w' := by
  intro budget
  induction budget with
  | zero => intro i w h; omega
  | succ b ih =>
    intro i w _ hB hw
    unfold triggerLoop
    split
    · rename_i hi
      have hmem : w.scene.triggers.get ⟨i, hi⟩ ∈ T := by
        rw [← hw.1]; exact List.get_mem _ _ _
      obtain ⟨w1, hb, hw1⟩ := triggerBody_deadAt env T pos sc _ w hw (hno _ hmem)
      rw [hb]
      simp only [Option.some_bind]
      have hlen : i < T.length := by rw [← hw.1]; exact hi
      exact ih (i + 1) w1 (by omega) (by omega) hw1
    · exact ⟨w, rfl, hw⟩

/-- The pass through a portal, the integration and the camera step do not
touch the alive flag. -/
theorem alive_beforeEndCheck (env : Env) (w : World) :
    (beforeEndCheck env w).scene.player.alive = w.scene.player.alive := by
  unfold beforeEndCheck
  rw [player_cameraSync]
  unfold integrate teleportStep
  simp only []
  split_ifs <;> rfl

/-- C10, counterexample. First, the player stands in a hazard volume and on
a win trigger: the hazard loop kills the player, the win trigger loads the
next level, and at the end of the tick the player of the scene is alive.
Second, the player stands in a hazard volume on the end marker: the
end-of-level check loads the next level, with the same outcome. In both
worlds the statements before the hazard loop change nothing. -/
theorem hazard_kill_counterexample :
    (collisionStage demoEnv (inputStep demoEnv (reviveStep (reloadOnKey demoEnv acidWinWorld)))
        = acidWinWorld ∧
      acidAtOrigin ∈ acidWinWorld.scene.volumes ∧
      touches demoEnv acidWinWorld.scene.player acidAtOrigin.position acidAtOrigin.scale ∧
      (acidStage demoEnv acidWinWorld).scene.player.alive = false ∧
      (update demoEnv 2 acidWinWorld).map (fun w' => w'.scene.player.alive) = some true) ∧
    (collisionStage demoEnv (inputStep demoEnv (reviveStep (reloadOnKey demoEnv acidEndWorld)))
        = acidEndWorld ∧
      acidAtOrigin ∈ acidEndWorld.scene.volumes ∧
      touches demoEnv acidEndWorld.scene.player acidAtOrigin.position acidAtOrigin.scale ∧
      (acidStage demoEnv acidEndWorld).scene.player.alive = false ∧
      (update demoEnv 1 acidEndWorld).map (fun w' => w'.scene.player.alive) = some true) := by
  refine ⟨⟨by decide, by decide, by decide, by decide, by decide⟩,
    ⟨by decide, by decide, by decide, by decide, by decide⟩⟩

/-- C10, amended. For every scene and every health value, if the box of the
player overlaps a hazard volume when the hazard loop runs, the player is not
alive when that loop ends; and if no trigger that overlaps the box is of kind
win or map, the trigger loop returns and the player is still not alive after
it and when the end-of-level check begins, which is the end of the tick when
the end marker is not reached. A scene loaded later in the tick (win or map
trigger, end of level) brings its own player. -/
theorem hazard_kills_unless_scene_loaded (env : Env) (budget : Nat) (w : World)
    (hhaz : ∃ acid ∈ w.scene.volumes, touches env w.scene.player acid.position acid.scale)
    (hno : ∀ t ∈ w.scene.triggers, touches env w.scene.player t.position t.scale →
      t.type ≠ "win" ∧ t.type ≠ "map")
    (hbudget : w.scene.triggers.length < budget) :
    (acidStage env w).scene.player.alive = false ∧
    ∃ w1, triggerStage env budget (acidStage env w) = some w1 ∧
      w1.scene.player.alive = false ∧
      (beforeEndCheck env w1).scene.player.alive = false ∧
      (¬ env.length ((beforeEndCheck env w1).scene.endMarker.position.sub
            (beforeEndCheck env w1).scene.player.position) < 1 →
        fromAcids env budget w = some (beforeEndCheck env w1)) := by
  obtain ⟨a, ha, _, hkill⟩ := acid_foldl env w.scene.volumes w.scene.player
  have ha0 : a = false := hkill hhaz
  subst ha0
  have hacid : acidStage env w = w.setPlayer { w.scene.player with alive := false } := by
    unfold acidStage; rw [ha]
  have hdead : DeadAt w.scene.triggers w.scene.player.position w.scene.player.scale
      (acidStage env w) := by
    rw [hacid]; exact ⟨rfl, rfl, rfl, rfl⟩
  obtain ⟨w1, h1, hw1⟩ := triggerLoop_deadAt env w.scene.triggers w.scene.player.position
    w.scene.player.scale hno budget 0 (acidStage env w) (by omega) (by omega) hdead
  have h1' : triggerStage env budget (acidStage env w) = some w1 := h1
  refine ⟨by rw [hacid]; rfl, w1, h1', hw1.2.2.2, ?_, ?_⟩
  · rw [alive_beforeEndCheck]; exact hw1.2.2.2
  · intro hfar
    unfold fromAcids
    rw [h1']
    simp only [Option.some_bind]
    unfold afterTriggers
    exact endOfLevel_far env _ hfar

/-- Witness of C10 amended: the player stands in a hazard volume, on a
radiation trigger and on a button trigger. -/
theorem hazard_kills_unless_scene_loaded_witness :
    (∃ acid ∈ acidWorld.scene.volumes,
      touches demoEnv acidWorld.scene.player acid.position acid.scale) ∧
    (∀ t ∈ acidWorld.scene.triggers,
      touches demoEnv acidWorld.scene.player t.position t.scale →
        t.type ≠ "win" ∧ t.type ≠ "map") ∧
    acidWorld.scene.triggers.length < 3 ∧
    ((acidStage demoEnv acidWorld).scene.player.alive = false ∧
      ∃ w1, triggerStage demoEnv 3 (acidStage demoEnv acidWorld) = some w1 ∧
        w1.scene.player.alive = false ∧
        (beforeEndCheck demoEnv w1).scene.player.alive = false ∧
        (¬ demoEnv.length ((beforeEndCheck demoEnv w1).scene.endMarker.position.sub
              (beforeEndCheck demoEnv w1).scene.player.position) < 1 →
          fromAcids demoEnv 3 acidWorld = some (beforeEndCheck demoEnv w1))) :=
  have h1 : ∃ acid ∈ acidWorld.scene.volumes,
      touches demoEnv acidWorld.scene.player acid.position acid.scale :=
    ⟨acidAtOrigin, by decide, by decide⟩
  have h2 : ∀ t ∈ acidWorld.scene.triggers,
      touches demoEnv acidWorld.scene.player t.position t.scale →
        t.type ≠ "win" ∧ t.type ≠ "map" := by decide
  ⟨h1, h2, by decide, hazard_kills_unless_scene_loaded demoEnv 3 acidWorld h1 h2 (by decide)⟩

/-! ## The collision stage -/

/-- The nested tests that set the variable portaling, as one Boolean. -/
theorem portaling_eq (o i1 i2 : Bool) (c1 c2 : Prop) [Decidable c1] [Decidable c2] :
    (if o = true then
        if i2 = true then
          if c2 then true else (if i1 = true then (if c1 then true else false) else false)
        else (if i1 = true then (if c1 then true else false) else false)
      else false) = (o && ((i1 && decide c1) || (i2 && decide c2))) := by
  cases o <;> cases i1 <;> cases i2 <;> by_cases h1 : c1 <;> by_cases h2 : c2 <;> simp [h1, h2]

/-- The Y test of the source, in closed form. -/
theorem collideY_eq (env : Env) (pos : Vector3f) (w : World) :
    collideY env pos w = if blockedY env pos w then stopY env w else w := by
  unfold collideY blockedY bypassY candidateY
  simp only [portaling_eq]
  cases collidesWithWalls env w ⟨⟨w.scene.player.position.x, pos.y, w.scene.player.position.z⟩,
    w.scene.player.scale⟩
  · rfl
  · simp only [Bool.true_and, if_true]
    split
    · unfold stopY playFallSound World.setPlayer
      simp only []
      split_ifs <;> first | rfl | (exfalso; tauto)
    · rfl

/-- The X test of the source, in closed form. -/
theorem collideX_eq (env : Env) (pos : Vector3f) (w : World) :
    collideX env pos w = if blockedX env pos w then stopX w else w := by
  unfold collideX blockedX bypassX candidateX
  simp only [portaling_eq]
  cases collidesWithWalls env w ⟨⟨pos.x, w.scene.player.position.y, w.scene.player.position.z⟩,
    w.scene.player.scale⟩
  · rfl
  · simp only [Bool.true_and, if_true]
    split <;> rfl

/-- The Z test of the source, in closed form. -/
theorem collideZ_eq (env : Env) (pos : Vector3f) (w : World) :
    collideZ env pos w = if blockedZ env pos w then stopZ w else w := by
  unfold collideZ blockedZ bypassZ candidateZ
  simp only [portaling_eq]
  cases collidesWithWalls env w ⟨⟨w.scene.player.position.x, w.scene.player.position.y, pos.z⟩,
    w.scene.player.scale⟩
  · rfl
  · simp only [Bool.true_and, if_true]
    split <;> rfl

theorem sameStatics_stopY (env : Env) (w : World) : SameStatics w (stopY env w) := by
  unfold stopY playFallSound World.setPlayer
  simp only []
  split_ifs <;> exact ⟨rfl, rfl, rfl, rfl, rfl⟩

theorem sameStatics_stopX (w : World) : SameStatics w (stopX w) := ⟨rfl, rfl, rfl, rfl, rfl⟩

theorem sameStatics_stopZ (w : World) : SameStatics w (stopZ w) := ⟨rfl, rfl, rfl, rfl, rfl⟩

theorem sameStatics_refl (w : World) : SameStatics w w := ⟨rfl, rfl, rfl, rfl, rfl⟩

theorem sameStatics_collideY (env : Env) (pos : Vector3f) (w : World) :
    SameStatics w (collideY env pos w) := by
  rw [collideY_eq]
  split
  · exact sameStatics_stopY env w
  · exact sameStatics_refl w

theorem sameStatics_collideX (env : Env) (pos : Vector3f) (w : World) :
    SameStatics w (collideX env pos w) := by
  rw [collideX_eq]
  split
  · exact sameStatics_stopX w
  · exact sameStatics_refl w

theorem sameStatics_collideZ (env : Env) (pos : Vector3f) (w : World) :
    SameStatics w (collideZ env pos w) := by
  rw [collideZ_eq]
  split
  · exact sameStatics_stopZ w
  · exact sameStatics_refl w

/-- The decision of the Y test reads only walls, portals, position and scale. -/
theorem blockedY_congr (env : Env) (pos : Vector3f) {w w' : World} (h : SameStatics w w') :
    blockedY env pos w' = blockedY env pos w := by
  obtain ⟨h1, h2, h3, h4, h5⟩ := h
  unfold blockedY bypassY candidateY collidesWithWalls
  rw [h1, h2, h3, h4, h5]

/-- The decision of the X test reads only walls, portals, position and scale. -/
theorem blockedX_congr (env : Env) (pos : Vector3f) {w w' : World} (h : SameStatics w w') :
    blockedX env pos w' = blockedX env pos w := by
  obtain ⟨h1, h2, h3, h4, h5⟩ := h
  unfold blockedX bypassX candidateX collidesWithWalls
  rw [h1, h2, h3, h4, h5]

/-- The decision of the Z test reads only walls, portals, position and scale. -/
theorem blockedZ_congr (env : Env) (pos : Vector3f) {w w' : World} (h : SameStatics w w') :
    blockedZ env pos w' = blockedZ env pos w := by
  obtain ⟨h1, h2, h3, h4, h5⟩ := h
  unfold blockedZ bypassZ candidateZ collidesWithWalls
  rw [h1, h2, h3, h4, h5]

/-- The collision stage in closed form: the three decisions are taken on the
state before the stage. -/
theorem collisionStage_eq (env : Env) (w : World) :
    collisionStage env w =
      (if blockedZ env (provisional w) w then stopZ else id)
        ((if blockedX env (provisional w) w then stopX else id)
          ((if blockedY env (provisional w) w then stopY env else id) w)) := by
  unfold collisionStage
  simp only []
  rw [collideZ_eq, collideX_eq, collideY_eq]
  have hY := sameStatics_collideY env (provisional w) w
  rw [collideY_eq] at hY
  have hX := sameStatics_collideX env (provisional w)
    (if blockedY env (provisional w) w then stopY env w else w)
  rw [collideX_eq] at hX
  have hbX := blockedX_congr env (provisional w) hY
  have hbZ := (blockedZ_congr env (provisional w) hX).trans (blockedZ_congr env (provisional w) hY)
  unfold provisional at *
  rw [hbZ, hbX]
  cases blockedZ env (w.scene.player.position.add w.scene.player.velocity) w <;>
    cases blockedX env (w.scene.player.position.add w.scene.player.velocity) w <;>
    cases blockedY env (w.scene.player.position.add w.scene.player.velocity) w <;> rfl

/-- The velocity after the collision stage: a component is zeroed exactly
when its test blocks. -/
theorem collisionStage_velocity (env : Env) (w : World) :
    (collisionStage env w).scene.player.velocity =
      ⟨if blockedX env (provisional w) w then 0 else w.scene.player.velocity.x,
       if blockedY env (provisional w) w then 0 else w.scene.player.velocity.y,
       if blockedZ env (provisional w) w then 0 else w.scene.player.velocity.z⟩ := by
  rw [collisionStage_eq]
  cases blockedZ env (provisional w) w <;> cases blockedX env (provisional w) w <;>
    cases blockedY env (provisional w) w <;>
    simp only [if_true, if_false, id, stopX, stopZ, stopY, World.setPlayer, Bool.false_eq_true]

/-- The grounded flag after the collision stage. -/
theorem collisionStage_grounded (env : Env) (w : World) :
    (collisionStage env w).scene.player.grounded =
      (if blockedY env (provisional w) w = true ∧ w.scene.player.velocity.y < 0 then true
       else w.scene.player.grounded) := by
  rw [collisionStage_eq]
  cases blockedZ env (provisional w) w <;> cases blockedX env (provisional w) w <;>
    cases blockedY env (provisional w) w <;>
    simp only [if_true, if_false, id, stopX, stopZ, stopY, World.setPlayer, Bool.false_eq_true,
      true_and, false_and]

/-- The position is not written by the collision stage. -/
theorem collisionStage_position (env : Env) (w : World) :
    (collisionStage env w).scene.player.position = w.scene.player.position :=
  ((sameStatics_collideY env _ w).2.2.2.1.symm.trans
    ((sameStatics_collideX env _ _).2.2.2.1.symm.trans
      (sameStatics_collideZ env _ _).2.2.2.1.symm)).symm

/-- The sound log after the collision stage: one fall sound is appended when
the Y test blocks a fall faster than the hurt velocity, nothing otherwise. -/
theorem collisionStage_audio (env : Env) (w : World) :
    (collisionStage env w).audio =
      w.audio ++
        (if blockedY env (provisional w) w = true ∧ w.scene.player.velocity.y < 0 ∧
            w.scene.player.velocity.y < -env.HURT_VELOCITY then
          [AudioEvent.sound
            (env.dataDir ++ (pickFile env w.generator env.PLAYER_FALL_SOUND).1)]
         else []) := by
  rw [collisionStage_eq]
  cases blockedZ env (provisional w) w <;> cases blockedX env (provisional w) w <;>
    cases blockedY env (provisional w) w <;>
    simp only [if_true, if_false, id, stopX, stopZ, stopY, World.setPlayer, Bool.false_eq_true,
      true_and, false_and, List.append_nil] <;>
    split_ifs <;> simp [playFallSound]

/-! ## Triggers that load nothing, and the map trigger -/

/-- C11. Unknown and button triggers are inert: handling a trigger whose kind
is button, or any string other than radiation, death, win and map, returns
the world it was given, so the player (position, velocity, health, alive,
grounded), the level index, the current scene path and the scene are
unchanged; this holds for an overlapped trigger as for any other. -/
theorem inert_trigger_changes_nothing (env : Env) (t : Trigger) (w : World)
    (h : t.type = "button" ∨
      (t.type ≠ "radiation" ∧ t.type ≠ "death" ∧ t.type ≠ "win" ∧ t.type ≠ "map")) :
    triggerBody env t w = some w := by
  have h4 : t.type ≠ "radiation" ∧ t.type ≠ "death" ∧ t.type ≠ "win" ∧ t.type ≠ "map" := by
    rcases h with h | h
    · rw [h]; decide
    · exact h
  obtain ⟨h1, h2, h3, h4⟩ := h4
  unfold triggerBody
  simp only [h1, h2, h3, h4, if_false]
  split_ifs <;> rfl

/-- Witness of C11: a button trigger and a trigger of an unknown kind, both
on the player of the demo world. -/
theorem inert_trigger_changes_nothing_witness :
    touches demoEnv demoWorld.scene.player (triggerAtOrigin "button" "").position
      (triggerAtOrigin "button" "").scale ∧
    triggerBody demoEnv (triggerAtOrigin "button" "") demoWorld = some demoWorld ∧
    triggerBody demoEnv (triggerAtOrigin "checkpoint" "") demoWorld = some demoWorld :=
  ⟨by decide,
    inert_trigger_changes_nothing demoEnv (triggerAtOrigin "button" "") demoWorld
      (Or.inl (by decide)),
    inert_trigger_changes_nothing demoEnv (triggerAtOrigin "checkpoint" "") demoWorld
      (Or.inr (by decide))⟩

/-- The map branch loads the scene at the path that is read after the scene
owning trigger.reference has been deleted, and leaves the level index alone. -/
theorem triggerBody_map (env : Env) (t : Trigger) (w : World)
    (hmap : t.type = "map")
    (hov : touches env w.scene.player t.position t.scale) :
    triggerBody env t w = some (loadScene env (env.readFreed t.reference) w) := by
  have h1 : t.type ≠ "radiation" := by rw [hmap]; decide
  have h2 : t.type ≠ "death" := by rw [hmap]; decide
  have h3 : t.type ≠ "win" := by rw [hmap]; decide
  have hov' : env.collidesWith ⟨w.scene.player.position, w.scene.player.scale⟩
      ⟨t.position, t.scale⟩ = true := hov
  unfold triggerBody
  simp only []
  rw [if_pos hov', if_neg h1, if_neg h2, if_neg h3, if_pos hmap]

/-- C14, the code at a failing input. The player of the demo world, at level
0, stands on a map trigger whose reference is a path of 29 characters. The
map branch hands loadScene a reference to trigger.reference; loadScene
deletes the scene, and the trigger with it, before it reads the path. In an
environment where a long freed string is found overwritten, the current
scene path and the scene loaded are not those of the reference; the level
index stays 0. -/
theorem map_trigger_reads_freed_reference :
    longMapTrigger.type = "map" ∧
    longMapTrigger.reference = "maps/bonus/secret_level_7.xml" ∧
    touches garbledEnv demoWorld.scene.player longMapTrigger.position longMapTrigger.scale ∧
    (triggerBody garbledEnv longMapTrigger demoWorld).map
        (fun w' => (w'.currentScenePath, w'.currentLevel)) = some ("garbage", 0) ∧
    (triggerBody garbledEnv longMapTrigger demoWorld).map (fun w' => w'.scene)
      = some (garbledEnv.getScene "garbage") ∧
    (triggerBody garbledEnv longMapTrigger demoWorld).map (fun w' => w'.currentScenePath)
      ≠ some longMapTrigger.reference := by
  refine ⟨by decide, by decide, by decide, by decide, by decide, by decide⟩

/-! ## Landing, fall sound, closed portals -/

/-- C12. Axis independence on landing: when the player has negative Y
velocity, the Y candidate box overlaps a wall with no portal bypass, and
neither the X nor the Z candidate box overlaps a wall, the collision stage
sets velocity.y to 0 and grounded to true and leaves velocity.x, velocity.z
and the position as they were. -/
theorem landing_zeroes_only_y (env : Env) (w : World)
    (hfall : w.scene.player.velocity.y < 0)
    (hY : collidesWithWalls env w (candidateY w.scene.player (provisional w)) = true)
    (hby : bypassY env w.scene (candidateY w.scene.player (provisional w)) = false)
    (hX : collidesWithWalls env w (candidateX w.scene.player (provisional w)) = false)
    (hZ : collidesWithWalls env w (candidateZ w.scene.player (provisional w)) = false) :
    (collisionStage env w).scene.player.velocity =
      ⟨w.scene.player.velocity.x, 0, w.scene.player.velocity.z⟩ ∧
    (collisionStage env w).scene.player.grounded = true ∧
    (collisionStage env w).scene.player.position = w.scene.player.position := by
  have hbY : blockedY env (provisional w) w = true := by
    unfold blockedY; rw [hY, hby]; rfl
  have hbX : blockedX env (provisional w) w = false := by
    unfold blockedX; rw [hX]; rfl
  have hbZ : blockedZ env (provisional w) w = false := by
    unfold blockedZ; rw [hZ]; rfl
  refine ⟨?_, ?_, collisionStage_position env w⟩
  · rw [collisionStage_velocity, hbX, hbY, hbZ]
    simp only [if_true, if_false, Bool.false_eq_true]
  · rw [collisionStage_grounded, hbY]
    simp only [hfall, and_self, if_true]

/-- Witness of C12: the player of landingWorld falls onto the floor while it
moves by 1 in x and in z. -/
theorem landing_zeroes_only_y_witness :
    landingWorld.scene.player.velocity.y < 0 ∧
    collidesWithWalls demoEnv landingWorld
      (candidateY landingWorld.scene.player (provisional landingWorld)) = true ∧
    bypassY demoEnv landingWorld.scene
      (candidateY landingWorld.scene.player (provisional landingWorld)) = false ∧
    ((collisionStage demoEnv landingWorld).scene.player.velocity =
        ⟨landingWorld.scene.player.velocity.x, 0, landingWorld.scene.player.velocity.z⟩ ∧
      (collisionStage demoEnv landingWorld).scene.player.grounded = true ∧
      (collisionStage demoEnv landingWorld).scene.player.position =
        landingWorld.scene.player.position) :=
  ⟨by decide, by decide, by decide,
    landing_zeroes_only_y demoEnv landingWorld (by decide) (by decide) (by decide)
      (by decide) (by decide)⟩

/-- C13. Fall-impact threshold, for a hurt velocity that is not negative: in
the collision stage of one tick exactly one fall sound is played when the Y
candidate box overlaps a wall, no portal bypass applies and
velocity.y < -HURT_VELOCITY, and none in every other case, whatever the
number of walls that overlap. -/
theorem fall_sound_once_beyond_threshold (env : Env) (w : World)
    (hH : 0 ≤ env.HURT_VELOCITY) :
    (collisionStage env w).audio =
      w.audio ++
        (if collidesWithWalls env w (candidateY w.scene.player (provisional w)) = true ∧
            bypassY env w.scene (candidateY w.scene.player (provisional w)) = false ∧
            w.scene.player.velocity.y < -env.HURT_VELOCITY then
          [AudioEvent.sound
            (env.dataDir ++ (pickFile env w.generator env.PLAYER_FALL_SOUND).1)]
         else []) ∧
    (collisionStage env w).audio.length =
      w.audio.length +
        (if collidesWithWalls env w (candidateY w.scene.player (provisional w)) = true ∧
            bypassY env w.scene (candidateY w.scene.player (provisional w)) = false ∧
            w.scene.player.velocity.y < -env.HURT_VELOCITY then 1 else 0) := by
  have hcond : (blockedY env (provisional w) w = true ∧ w.scene.player.velocity.y < 0 ∧
        w.scene.player.velocity.y < -env.HURT_VELOCITY) ↔
      (collidesWithWalls env w (candidateY w.scene.player (provisional w)) = true ∧
        bypassY env w.scene (candidateY w.scene.player (provisional w)) = false ∧
        w.scene.player.velocity.y < -env.HURT_VELOCITY) := by
    unfold blockedY
    constructor
    · rintro ⟨hb, _, hv⟩
      simp only [Bool.and_eq_true, Bool.not_eq_true'] at hb
      exact ⟨hb.1, hb.2, hv⟩
    · rintro ⟨hc, hb, hv⟩
      exact ⟨by rw [hc, hb]; rfl, lt_of_lt_of_le hv (neg_nonpos.mpr hH), hv⟩
  have ha := collisionStage_audio env w
  simp only [hcond] at ha
  refine ⟨ha, ?_⟩
  rw [ha]
  split_ifs <;> simp

/-- Witness of C13: the player of landingWorld hits the floor at velocity -6,
beyond the hurt velocity 5, and one fall sound is played. -/
theorem fall_sound_once_beyond_threshold_witness :
    0 ≤ demoEnv.HURT_VELOCITY ∧
    (collisionStage demoEnv landingWorld).audio = [AudioEvent.sound "data/fall.ogg"] ∧
    ((collisionStage demoEnv landingWorld).audio =
      landingWorld.audio ++
        (if collidesWithWalls demoEnv landingWorld
              (candidateY landingWorld.scene.player (provisional landingWorld)) = true ∧
            bypassY demoEnv landingWorld.scene
              (candidateY landingWorld.scene.player (provisional landingWorld)) = false ∧
            landingWorld.scene.player.velocity.y < -demoEnv.HURT_VELOCITY then
          [AudioEvent.sound (demoEnv.dataDir ++
            (pickFile demoEnv landingWorld.generator demoEnv.PLAYER_FALL_SOUND).1)]
         else []) ∧
    (collisionStage demoEnv landingWorld).audio.length =
      landingWorld.audio.length +
        (if collidesWithWalls demoEnv landingWorld
              (candidateY landingWorld.scene.player (provisional landingWorld)) = true ∧
            bypassY demoEnv landingWorld.scene
              (candidateY landingWorld.scene.player (provisional landingWorld)) = false ∧
            landingWorld.scene.player.velocity.y < -demoEnv.HURT_VELOCITY then 1 else 0)) :=
  ⟨by decide, by decide, fall_sound_once_beyond_threshold demoEnv landingWorld (by decide)⟩

/-- C20. No wall bypass with fewer than two open portals: when at least one
portal is closed, each axis (Y, X, Z) whose candidate box overlaps some wall
has its velocity component set to 0 by the collision stage, whatever the
positions and rotations of the portals and the answers of inPortal. -/
theorem closed_portal_gives_no_bypass (env : Env) (w : World)
    (h : w.scene.bluePortal.isOpen = false ∨ w.scene.orangePortal.isOpen = false) :
    (collidesWithWalls env w (candidateY w.scene.player (provisional w)) = true →
      (collisionStage env w).scene.player.velocity.y = 0) ∧
    (collidesWithWalls env w (candidateX w.scene.player (provisional w)) = true →
      (collisionStage env w).scene.player.velocity.x = 0) ∧
    (collidesWithWalls env w (candidateZ w.scene.player (provisional w)) = true →
      (collisionStage env w).scene.player.velocity.z = 0) := by
  have hopen : (w.scene.bluePortal.isOpen && w.scene.orangePortal.isOpen) = false := by
    rcases h with h | h <;> simp [h]
  rw [collisionStage_velocity]
  refine ⟨?_, ?_, ?_⟩
  · intro hc
    have hb : blockedY env (provisional w) w = true := by
      unfold blockedY bypassY; rw [hc, hopen]; rfl
    simp only [hb, if_true]
  · intro hc
    have hb : blockedX env (provisional w) w = true := by
      unfold blockedX bypassX; rw [hc, hopen]; rfl
    simp only [hb, if_true]
  · intro hc
    have hb : blockedZ env (provisional w) w = true := by
      unfold blockedZ bypassZ; rw [hc, hopen]; rfl
    simp only [hb, if_true]

/-- Witness of C20: in landingWorld the blue portal is open under the player,
turned by 90 degrees about X, and the box of the Y test is inside it; the
orange portal is closed and the Y velocity is zeroed. -/
theorem closed_portal_gives_no_bypass_witness :
    landingWorld.scene.bluePortal.isOpen = true ∧
    demoEnv.inPortal landingWorld.scene.bluePortal
      (candidateY landingWorld.scene.player (provisional landingWorld)) = true ∧
    landingWorld.scene.bluePortal.rotation.x = demoEnv.rad 90 ∧
    collidesWithWalls demoEnv landingWorld
      (candidateY landingWorld.scene.player (provisional landingWorld)) = true ∧
    (landingWorld.scene.bluePortal.isOpen = false ∨
      landingWorld.scene.orangePortal.isOpen = false) ∧
    ((collidesWithWalls demoEnv landingWorld
        (candidateY landingWorld.scene.player (provisional landingWorld)) = true →
      (collisionStage demoEnv landingWorld).scene.player.velocity.y = 0) ∧
    (collidesWithWalls demoEnv landingWorld
        (candidateX landingWorld.scene.player (provisional landingWorld)) = true →
      (collisionStage demoEnv landingWorld).scene.player.velocity.x = 0) ∧
    (collidesWithWalls demoEnv landingWorld
        (candidateZ landingWorld.scene.player (provisional landingWorld)) = true →
      (collisionStage demoEnv landingWorld).scene.player.velocity.z = 0)) :=
  ⟨by decide, by decide, by decide, by decide, Or.inr (by decide),
    closed_portal_gives_no_bypass demoEnv landingWorld (Or.inr (by decide))⟩

/-! ## World::collidesWithWalls -/

/-- The loop over the walls answers true exactly when some wall overlaps. -/
theorem collidesWithWallsFrom_iff (env : Env) (collider : BoxCollider) :
    ∀ walls : List PhysicsEntity,
      collidesWithWallsFrom env collider walls = true ↔
        ∃ wall ∈ walls, env.collidesWith collider wall.physBody = true := by
  intro walls
  induction walls with
  | nil => simp [collidesWithWallsFrom]
  | cons wall rest ih =>
    unfold collidesWithWallsFrom
    by_cases hc : env.collidesWith collider wall.physBody = true
    · simp only [hc, if_true, true_iff]
      exact ⟨wall, List.mem_cons_self _ _, hc⟩
    · simp only [hc, if_false, Bool.false_eq_true]
      rw [ih]
      constructor
      · rintro ⟨e, he, h⟩
        exact ⟨e, List.mem_cons_of_mem _ he, h⟩
      · rintro ⟨e, he, h⟩
        rcases List.mem_cons.mp he with rfl | hr
        · exact absurd h hc
        · exact ⟨e, hr, h⟩

/-- C15. Wall-order independence: collidesWithWalls returns true exactly when
the collider of at least one wall overlaps the box; hence it returns false on
the empty wall list and the same answer for every permutation of the wall
list. -/
theorem collidesWithWalls_order_independent (env : Env) (w w' : World)
    (collider : BoxCollider) (hperm : w'.scene.walls.Perm w.scene.walls) :
    (collidesWithWalls env w collider = true ↔
      ∃ wall ∈ w.scene.walls, env.collidesWith collider wall.physBody = true) ∧
    (w.scene.walls = [] → collidesWithWalls env w collider = false) ∧
    collidesWithWalls env w' collider = collidesWithWalls env w collider := by
  unfold collidesWithWalls
  refine ⟨collidesWithWallsFrom_iff env collider _, ?_, ?_⟩
  · intro hnil
    rw [hnil]; rfl
  · have hiff : collidesWithWallsFrom env collider w'.scene.walls = true ↔
        collidesWithWallsFrom env collider w.scene.walls = true := by
      rw [collidesWithWallsFrom_iff, collidesWithWallsFrom_iff]
      constructor
      · rintro ⟨e, he, h⟩
        exact ⟨e, hperm.mem_iff.mp he, h⟩
      · rintro ⟨e, he, h⟩
        exact ⟨e, hperm.mem_iff.mpr he, h⟩
    cases h1 : collidesWithWallsFrom env collider w'.scene.walls <;>
      cases h2 : collidesWithWallsFrom env collider w.scene.walls <;> simp_all

/-- Witness of C15: the two walls of occludedWorld in either order, against
a box around the first wall. -/
theorem collidesWithWalls_order_independent_witness :
    ({ occludedWorld with scene := { occludedWorld.scene with
        walls := [wallAt (-5) true, wallAt (-2) false] } } : World).scene.walls.Perm
      occludedWorld.scene.walls ∧
    collidesWithWalls demoEnv occludedWorld ⟨⟨0, 0, -2⟩, ⟨1, 2, 1⟩⟩ = true ∧
    ((collidesWithWalls demoEnv occludedWorld ⟨⟨0, 0, -2⟩, ⟨1, 2, 1⟩⟩ = true ↔
      ∃ wall ∈ occludedWorld.scene.walls,
        demoEnv.collidesWith ⟨⟨0, 0, -2⟩, ⟨1, 2, 1⟩⟩ wall.physBody = true) ∧
    (occludedWorld.scene.walls = [] →
      collidesWithWalls demoEnv occludedWorld ⟨⟨0, 0, -2⟩, ⟨1, 2, 1⟩⟩ = false) ∧
    collidesWithWalls demoEnv
        { occludedWorld with scene := { occludedWorld.scene with
            walls := [wallAt (-5) true, wallAt (-2) false] } }
        ⟨⟨0, 0, -2⟩, ⟨1, 2, 1⟩⟩ =
      collidesWithWalls demoEnv occludedWorld ⟨⟨0, 0, -2⟩, ⟨1, 2, 1⟩⟩) :=
  have hperm : ({ occludedWorld with scene := { occludedWorld.scene with
        walls := [wallAt (-5) true, wallAt (-2) false] } } : World).scene.walls.Perm
      occludedWorld.scene.walls := List.Perm.swap _ _ _
  ⟨hperm, by decide,
    collidesWithWalls_order_independent demoEnv occludedWorld _ ⟨⟨0, 0, -2⟩, ⟨1, 2, 1⟩⟩ hperm⟩

/-! ## Order of the three tests -/

theorem stopX_stopY (env : Env) (w : World) : stopX (stopY env w) = stopY env (stopX w) := by
  unfold stopX stopY playFallSound World.setPlayer
  simp only []
  split_ifs <;> rfl

theorem stopZ_stopY (env : Env) (w : World) : stopZ (stopY env w) = stopY env (stopZ w) := by
  unfold stopZ stopY playFallSound World.setPlayer
  simp only []
  split_ifs <;> rfl

theorem stopZ_stopX (w : World) : stopZ (stopX w) = stopX (stopZ w) := rfl

/-- The X test and the Y test can be swapped. -/
theorem collideX_collideY (env : Env) (pos : Vector3f) (w : World) :
    collideX env pos (collideY env pos w) = collideY env pos (collideX env pos w) := by
  rw [collideX_eq env pos (collideY env pos w), collideY_eq env pos (collideX env pos w),
    blockedX_congr env pos (sameStatics_collideY env pos w),
    blockedY_congr env pos (sameStatics_collideX env pos w), collideY_eq, collideX_eq]
  cases blockedX env pos w <;> cases blockedY env pos w <;>
    simp only [if_true, if_false, Bool.false_eq_true, stopX_stopY]

/-- The Z test and the Y test can be swapped. -/
theorem collideZ_collideY (env : Env) (pos : Vector3f) (w : World) :
    collideZ env pos (collideY env pos w) = collideY env pos (collideZ env pos w) := by
  rw [collideZ_eq env pos (collideY env pos w), collideY_eq env pos (collideZ env pos w),
    blockedZ_congr env pos (sameStatics_collideY env pos w),
    blockedY_congr env pos (sameStatics_collideZ env pos w), collideY_eq, collideZ_eq]
  cases blockedZ env pos w <;> cases blockedY env pos w <;>
    simp only [if_true, if_false, Bool.false_eq_true, stopZ_stopY]

/-- The Z test and the X test can be swapped. -/
theorem collideZ_collideX (env : Env) (pos : Vector3f) (w : World) :
    collideZ env pos (collideX env pos w) = collideX env pos (collideZ env pos w) := by
  rw [collideZ_eq env pos (collideX env pos w), collideX_eq env pos (collideZ env pos w),
    blockedZ_congr env pos (sameStatics_collideX env pos w),
    blockedX_congr env pos (sameStatics_collideZ env pos w), collideX_eq, collideZ_eq]
  cases blockedZ env pos w <;> cases blockedX env pos w <;>
    simp only [if_true, if_false, Bool.false_eq_true, stopZ_stopX]

/-- C17. The three axis resolutions are independent: the decision of each
test is the one taken on the position and velocity before the stage (the
closed form in the first line), and the Y, X and Z tests applied in any of
the six orders leave the same world, so the same velocity vector and grounded
flag, as the order Y, X, Z of the source. -/
theorem axis_tests_in_any_order (env : Env) (w : World) :
    collisionStage env w =
      (if blockedZ env (provisional w) w then stopZ else id)
        ((if blockedX env (provisional w) w then stopX else id)
          ((if blockedY env (provisional w) w then stopY env else id) w)) ∧
    collideZ env (provisional w) (collideX env (provisional w) (collideY env (provisional w) w))
      = collisionStage env w ∧
    collideX env (provisional w) (collideZ env (provisional w) (collideY env (provisional w) w))
      = collisionStage env w ∧
    collideZ env (provisional w) (collideY env (provisional w) (collideX env (provisional w) w))
      = collisionStage env w ∧
    collideY env (provisional w) (collideZ env (provisional w) (collideX env (provisional w) w))
      = collisionStage env w ∧
    collideY env (provisional w) (collideX env (provisional w) (collideZ env (provisional w) w))
      = collisionStage env w ∧
    collideX env (provisional w) (collideY env (provisional w) (collideZ env (provisional w) w))
      = collisionStage env w := by
  have hyxz : collisionStage env w = collideZ env (provisional w)
      (collideX env (provisional w) (collideY env (provisional w) w)) := rfl
  refine ⟨collisionStage_eq env w, hyxz.symm, ?_, ?_, ?_, ?_, ?_⟩
  · rw [hyxz, collideZ_collideX]
  · rw [hyxz, collideX_collideY]
  · rw [hyxz, collideX_collideY, collideZ_collideY]
  · rw [hyxz, collideX_collideY, collideZ_collideY, collideZ_collideX]
  · rw [hyxz, collideZ_collideX, collideZ_collideY]

/-! ## The X test and the rotation of the portals -/

/-- With both portals open and the box of the X test inside the orange
portal only, the variable portaling of the source is true exactly when the X
rotation of the blue portal is 0 and the Y rotation of the orange portal is
90 degrees either way. -/
theorem bypassX_in_orange_only (env : Env) (s : Scene) (box : BoxCollider)
    (hb : s.bluePortal.isOpen = true) (ho : s.orangePortal.isOpen = true)
    (hin : env.inPortal s.orangePortal box = true)
    (hout : env.inPortal s.bluePortal box = false) :
    bypassX env s box = true ↔
      (s.bluePortal.rotation.x = 0 ∧
        (s.orangePortal.rotation.y = env.rad (-90) ∨ s.orangePortal.rotation.y = env.rad 90)) := by
  unfold bypassX
  rw [hb, ho, hin, hout]
  simp

/-- C16, the code at a failing input. In sidePortalWorld both portals are
open, the box of the X test overlaps a wall and is inside the orange portal
only, and the orange portal has X rotation 0 and Y rotation 90: tested
against its own rotation the bypass is granted, but the source reads the X
rotation of the blue portal (90) and zeroes the X velocity 2. In
tiltedPortalWorld the orange portal has X rotation 45 and the blue portal X
rotation 0: no bypass by the own rotation, yet the X velocity 2 is kept. -/
theorem x_bypass_reads_blue_rotation :
    (sidePortalWorld.scene.bluePortal.isOpen = true ∧
      sidePortalWorld.scene.orangePortal.isOpen = true ∧
      collidesWithWalls demoEnv sidePortalWorld
        (candidateX sidePortalWorld.scene.player (provisional sidePortalWorld)) = true ∧
      demoEnv.inPortal sidePortalWorld.scene.orangePortal
        (candidateX sidePortalWorld.scene.player (provisional sidePortalWorld)) = true ∧
      demoEnv.inPortal sidePortalWorld.scene.bluePortal
        (candidateX sidePortalWorld.scene.player (provisional sidePortalWorld)) = false ∧
      sidePortalWorld.scene.orangePortal.rotation.x = 0 ∧
      sidePortalWorld.scene.orangePortal.rotation.y = demoEnv.rad 90 ∧
      bypassXOwnRotation demoEnv sidePortalWorld.scene
        (candidateX sidePortalWorld.scene.player (provisional sidePortalWorld)) = true ∧
      sidePortalWorld.scene.player.velocity.x = 2 ∧
      (collisionStage demoEnv sidePortalWorld).scene.player.velocity.x = 0) ∧
    (tiltedPortalWorld.scene.bluePortal.isOpen = true ∧
      tiltedPortalWorld.scene.orangePortal.isOpen = true ∧
      collidesWithWalls demoEnv tiltedPortalWorld
        (candidateX tiltedPortalWorld.scene.player (provisional tiltedPortalWorld)) = true ∧
      demoEnv.inPortal tiltedPortalWorld.scene.orangePortal
        (candidateX tiltedPortalWorld.scene.player (provisional tiltedPortalWorld)) = true ∧
      demoEnv.inPortal tiltedPortalWorld.scene.bluePortal
        (candidateX tiltedPortalWorld.scene.player (provisional tiltedPortalWorld)) = false ∧
      tiltedPortalWorld.scene.orangePortal.rotation.x = 45 ∧
      bypassXOwnRotation demoEnv tiltedPortalWorld.scene
        (candidateX tiltedPortalWorld.scene.player (provisional tiltedPortalWorld)) = false ∧
      tiltedPortalWorld.scene.player.velocity.x = 2 ∧
      (collisionStage demoEnv tiltedPortalWorld).scene.player.velocity.x = 2) := by
  refine ⟨⟨by decide, by decide, by decide, by decide, by decide, by decide, by decide,
      by decide, by decide, by decide⟩,
    ⟨by decide, by decide, by decide, by decide, by decide, by decide, by decide, by decide,
      by decide⟩⟩

/-! ## The revive step -/

/-- C18, the code at a failing input. The demo world is at level 0 of 3, not
the last one, and its player stands on a win trigger. First, the second level
has a button trigger and then a win trigger at the place of the player: the
win branch loads the second level, the loop goes on at trigger index 1 over
the triggers of the loaded scene and advances again, so the index ends at 2,
not at 1. Second, the player of the second level starts on the end marker:
the win trigger loads the second level and the end-of-level check of the same
tick, which reads scene->player, loads the third, and the index ends at 2. In
both cases the player of the loaded scene has the position, scale and
velocity of the player of the deleted scene, so the tests read the same box
whichever of the two the reference bound at line 90 shows, and the statements
before the trigger loop change nothing. -/
theorem win_advances_twice_in_one_tick :
    demoWorld.currentLevel = 0 ∧
    demoWorld.currentLevel + 1 < demoWorld.mapList.length ∧
    demoWorld.scene.triggers = [triggerAtOrigin "win" ""] ∧
    touches demoEnv demoWorld.scene.player (triggerAtOrigin "win" "").position
      (triggerAtOrigin "win" "").scale ∧
    (laterWinEnv.getScene "level2.xml").player = demoWorld.scene.player ∧
    acidStage laterWinEnv (collisionStage laterWinEnv
      (inputStep laterWinEnv (reviveStep (reloadOnKey laterWinEnv demoWorld)))) = demoWorld ∧
    (update laterWinEnv 3 demoWorld).map (fun w' => w'.currentLevel) = some 2 ∧
    (endAtSpawnEnv.getScene "level2.xml").player = demoWorld.scene.player ∧
    acidStage endAtSpawnEnv (collisionStage endAtSpawnEnv
      (inputStep endAtSpawnEnv (reviveStep (reloadOnKey endAtSpawnEnv demoWorld)))) = demoWorld ∧
    (update endAtSpawnEnv 2 demoWorld).map (fun w' => w'.currentLevel) = some 2 := by
  refine ⟨by decide, by decide, by decide, by decide, by decide, by decide, by decide,
    by decide, by decide, by decide⟩

end glPortal
